import Mathlib

/-!
# HistoryMap: region fusion and emotion colouring of `MapView.jsx`

A shallow embedding of `frontend/src/components/MapView.jsx`: the colour rule
`getEmotionColor`, the two fusion paths of `loadGeoJson`
(`featuresWithEmotions` over a fetched geometry file, `fallbackFeatures` when
the fetch fails), `styleFeature`, and the handlers of `onEachFeature` as a
step function on the state of the mounted component; and of the three calls
of `frontend/src/services/api.js`.

Modelling conventions.
* A JavaScript number that is finite is the rational it denotes; `NaN` is a
  separate value (`JSNumber.nan`).  Comparisons (`Math.max`, `===`) are exact
  on this model.  The operators `+`, `-`, `*` are the IEEE-754 binary64
  operations: both operands are read as doubles and the exact result is
  rounded to the nearest double, ties to even (`roundDouble`).  Results beyond
  the binary64 range (overflow to `Infinity`) and the sign of zero are not
  represented.  The grid coordinates of the fallback features are kept as the
  exact decimal values of the formula.
* A missing object field reads as `undefined`; for the numeric emotion fields
  this is `none : Option ℚ`.
* Objects whose shape is open (`feature.properties`) are association lists
  from keys to `JSVal`.
-/

namespace HistoryMap

/-! ## IEEE-754 binary64 arithmetic -/

/-- The integer nearest to `m`, the even one of the two when `m` lies half
way. -/
def roundHalfEven (m : ℚ) : ℤ :=
  if m - ⌊m⌋ < 1 / 2 then ⌊m⌋
  else if 1 / 2 < m - ⌊m⌋ then ⌊m⌋ + 1
  else if ⌊m⌋ % 2 = 0 then ⌊m⌋ else ⌊m⌋ + 1

/-- The double nearest to `q`, ties to even: 53 significant bits at the
binary exponent of `q`, the exponent of the subnormal range below `2 ^ -1022`.
A double is a fixed point. -/
def roundDouble (q : ℚ) : ℚ :=
  if q = 0 then 0
  else
    let e : ℤ := max (Int.log 2 |q|) (-1022)
    (roundHalfEven (q / 2 ^ (e - 52)) : ℚ) * 2 ^ (e - 52)

/-- The sum `a + b` of two numbers in binary64. -/
def dAdd (a b : ℚ) : ℚ := roundDouble (roundDouble a + roundDouble b)

/-- The difference `a - b` of two numbers in binary64. -/
def dSub (a b : ℚ) : ℚ := roundDouble (roundDouble a - roundDouble b)

/-- The product `a * b` of two numbers in binary64. -/
def dMul (a b : ℚ) : ℚ := roundDouble (roundDouble a * roundDouble b)

/-! ## JavaScript values -/

/-- A JavaScript number: `NaN` or a finite value. -/
inductive JSNumber where
  | nan
  | fin (q : ℚ)
deriving DecidableEq

namespace JSNumber

/-- The coercion `ToNumber` on a field that is a number or `undefined`. -/
def ofField : Option ℚ → JSNumber
  | none => nan
  | some q => fin q

/-- The operator `+` on numbers. -/
def add : JSNumber → JSNumber → JSNumber
  | fin a, fin b => fin (dAdd a b)
  | _, _ => nan

/-- The operator `-` on numbers. -/
def sub : JSNumber → JSNumber → JSNumber
  | fin a, fin b => fin (dSub a b)
  | _, _ => nan

/-- The operator `*` on numbers. -/
def mul : JSNumber → JSNumber → JSNumber
  | fin a, fin b => fin (dMul a b)
  | _, _ => nan

/-- The function `Math.floor`. -/
def floor : JSNumber → JSNumber
  | fin a => fin (⌊a⌋ : ℤ)
  | nan => nan

/-- The function `Math.max` applied to two or more arguments, folded from the
left: `NaN` as soon as one argument is `NaN`, the largest argument otherwise. -/
def max2 : JSNumber → JSNumber → JSNumber
  | fin a, fin b => fin (max a b)
  | _, _ => nan

/-- The comparison `x === y` of a number with a field value (a number or
`undefined`): `NaN` equals nothing, `undefined` is not a number. -/
def strictEq : JSNumber → Option ℚ → Bool
  | fin a, some b => decide (a = b)
  | _, _ => false

/-- The text a template literal inserts for a number. The component only
inserts results of `Math.floor`, which are integers or `NaN`; an integer
prints as its decimal digits (magnitudes below `1e21`). -/
def render : JSNumber → String
  | fin a => toString (⌊a⌋ : ℤ)
  | nan => "NaN"

end JSNumber

/-- The call `Math.max(a, b, c, d)` on four field values. -/
def mathMax (a b c d : Option ℚ) : JSNumber :=
  JSNumber.max2 (JSNumber.max2 (JSNumber.max2 (JSNumber.ofField a) (JSNumber.ofField b))
    (JSNumber.ofField c)) (JSNumber.ofField d)

/-- An emotions object `{ fear, joy, neutral, sadness }`; a field that the
object lacks is `none`. -/
structure Emotions where
  fear : Option ℚ
  joy : Option ℚ
  neutral : Option ℚ
  sadness : Option ℚ
deriving DecidableEq

/-- A JavaScript value stored in a property of a feature. -/
inductive JSVal where
  | undefined
  | null
  | bool (b : Bool)
  | num (q : ℚ)
  | str (s : String)
  | emotions (e : Emotions)
deriving DecidableEq

/-- An object with an open set of keys, in insertion order. -/
abbrev Props := List (String × JSVal)

/-- Property read `obj[key]`; a key that is absent reads `undefined`. -/
def getProp : Props → String → JSVal
  | [], _ => JSVal.undefined
  | (k, v) :: rest, key => if k = key then v else getProp rest key

/-- Property write as done by an object literal `{ ...obj, key: v }`: an
existing key keeps its place and takes the new value, a new key goes last. -/
def setProp : Props → String → JSVal → Props
  | [], key, v => [(key, v)]
  | (k, w) :: rest, key, v =>
    if k = key then (k, v) :: rest else (k, w) :: setProp rest key v

/-- Optional read `obj?.[key]` on an object that may be `null`/`undefined`. -/
def getPropOpt (obj : Option Props) (key : String) : JSVal :=
  match obj with
  | none => JSVal.undefined
  | some p => getProp p key

/-- The spread `{ ...obj }` of an object that may be `null`/`undefined`. -/
def spread (obj : Option Props) : Props :=
  match obj with
  | none => []
  | some p => p

/-! ## Data of the component -/

/-- One entry of the `regions` prop (a region statistic of the selected
year). -/
structure RegionStat where
  name : Option String
  emotions : Option Emotions
  diary_count : Option ℚ
  geo_id : Option String
deriving DecidableEq

/-- A GeoJSON geometry: a `Point` (the fallback path creates such
objects), or a line or polygon geometry of the fetched file (`type` one of
`LineString`, `MultiLineString`, `Polygon`, `MultiPolygon`), carried through
untouched. The types `MultiPoint` and `GeometryCollection` are not
represented. -/
inductive Geometry where
  | point (x y : ℚ)
  | shape (type : String) (coordinates : List (List (List (ℚ × ℚ))))
deriving DecidableEq

/-- A GeoJSON feature. -/
structure Feature where
  type : String
  id : Option String
  properties : Option Props
  geometry : Geometry
deriving DecidableEq

/-- A GeoJSON document `{ type, features }`. -/
structure GeoJson where
  type : String
  features : List Feature
deriving DecidableEq

/-- The object returned by `styleFeature`. -/
structure Style where
  fillColor : String
  weight : ℚ
  opacity : ℚ
  color : String
  dashArray : String
  fillOpacity : ℚ
deriving DecidableEq

/-! ## `getEmotionColor` -/

/-- The template literal with three inserted numbers. -/
def rgb (r g b : JSNumber) : String :=
  "rgb(" ++ r.render ++ ", " ++ g.render ++ ", " ++ b.render ++ ")"

/-- The colour rule of `getEmotionColor`; `none` is a falsy argument. -/
def getEmotionColor (emotions : Option Emotions) : String :=
  match emotions with
  | none => "#e5e7eb"
  | some e =>
    let fear := e.fear
    let joy := e.joy
    let neutral := e.neutral
    let sadness := e.sadness
    let max := mathMax fear joy neutral sadness
    if max.strictEq fear || max.strictEq sadness then
      let intensity := JSNumber.floor (JSNumber.sub (JSNumber.fin 200)
        (JSNumber.mul (JSNumber.add (JSNumber.ofField fear) (JSNumber.ofField sadness))
          (JSNumber.fin 100)))
      rgb intensity (JSNumber.floor (JSNumber.mul intensity (JSNumber.fin (3 / 10))))
        (JSNumber.floor (JSNumber.mul intensity (JSNumber.fin (3 / 10))))
    else if max.strictEq joy then
      let intensity := JSNumber.floor (JSNumber.sub (JSNumber.fin 200)
        (JSNumber.mul (JSNumber.ofField joy) (JSNumber.fin 100)))
      rgb (JSNumber.floor (JSNumber.mul intensity (JSNumber.fin (3 / 10)))) intensity
        (JSNumber.floor (JSNumber.mul intensity (JSNumber.fin (3 / 10))))
    else
      "#e5e7eb"

/-! ## Fusion: `loadGeoJson` -/

/-- The vector attached when a region has no emotion data. -/
def defaultEmotions : Emotions :=
  { fear := some 0, joy := some 0, neutral := some 1, sadness := some 0 }

/-- The expression `x || 0` on a number that may be `undefined`: zero is
falsy and is replaced by the literal `0`. -/
def orZero : Option ℚ → ℚ
  | some q => if q = 0 then 0 else q
  | none => 0

/-- The value of `region.name` as a JavaScript value. -/
def nameVal : Option String → JSVal
  | some s => JSVal.str s
  | none => JSVal.undefined

/-- The callback of `data.features.map` in the `try` block: the statistics
of the first region whose `name` is strictly equal to the feature's
`properties.name` are attached to a copy of the feature. -/
def attachEmotions (regions : List RegionStat) (feature : Feature) : Feature :=
  let regionName := getPropOpt feature.properties "name"
  let regionData := regions.find? (fun r => decide (nameVal r.name = regionName))
  { feature with
    properties := some
      (setProp
        (setProp (spread feature.properties) "emotions"
          (JSVal.emotions
            (match regionData.bind (fun r => r.emotions) with
             | some e => e
             | none => defaultEmotions)))
        "diaryCount"
        (JSVal.num (orZero (regionData.bind (fun r => r.diary_count))))) }

/-- The list `featuresWithEmotions` built from `data.features`. -/
def featuresWithEmotions (features : List Feature) (regions : List RegionStat) :
    List Feature :=
  features.map (attachEmotions regions)

/-- The identifier `region.geo_id || "region-" + index`: an absent or empty
`geo_id` is falsy. -/
def fallbackId (geo_id : Option String) (index : ℕ) : String :=
  match geo_id with
  | some g => if g = "" then "region-" ++ toString index else g
  | none => "region-" ++ toString index

/-- The callback of `regions.map` in the `catch` block. -/
def fallbackFeature (region : RegionStat) (index : ℕ) : Feature :=
  { type := "Feature"
    id := some (fallbackId region.geo_id index)
    properties := some
      [("name", nameVal region.name),
       ("emotions", JSVal.emotions
          (match region.emotions with
           | some e => e
           | none => defaultEmotions)),
       ("diaryCount", JSVal.num (orZero region.diary_count))]
    geometry := Geometry.point
      (376173 / 10000 + ((index % 10 : ℕ) : ℚ) * 2)
      (557558 / 10000 + ((⌊(index : ℚ) / 10⌋ : ℤ) : ℚ) * 2) }

/-- The list `fallbackFeatures`: one feature per region, with its index. -/
def fallbackFeatures (regions : List RegionStat) : List Feature :=
  regions.enum.map (fun p => fallbackFeature p.2 p.1)

/-- The value passed to `setGeoJsonData` by `loadGeoJson`. The argument
`fetched` is the parsed body of `/urss.geojson`, or `none` when the `try`
block throws (the fetch rejects, the response is not ok, the body does not
parse). -/
def loadGeoJson (fetched : Option GeoJson) (regions : List RegionStat) : GeoJson :=
  match fetched with
  | some data => { data with features := featuresWithEmotions data.features regions }
  | none => { type := "FeatureCollection", features := fallbackFeatures regions }

/-! ## `styleFeature` -/

/-- The expression `feature.properties?.emotions || {}` as the argument of
`getEmotionColor`. A falsy value is replaced by the empty object; a truthy
value that is not an emotions object has none of the four fields, so
destructuring it gives the same four `undefined` as the empty object. -/
def emotionsOf (feature : Feature) : Emotions :=
  match getPropOpt feature.properties "emotions" with
  | JSVal.emotions e => e
  | _ => { fear := none, joy := none, neutral := none, sadness := none }

/-- The style callback given to the GeoJSON layer. -/
def styleFeature (feature : Feature) : Style :=
  let emotions := emotionsOf feature
  { fillColor := getEmotionColor (some emotions)
    weight := 2
    opacity := 1
    color := "white"
    dashArray := "3"
    fillOpacity := 7 / 10 }

/-! ## Interaction: `onEachFeature`, the component state, the tooltip -/

/-- JavaScript truthiness of a property value. -/
def JSVal.truthy : JSVal → Bool
  | JSVal.undefined => false
  | JSVal.null => false
  | JSVal.bool b => b
  | JSVal.num q => decide (q ≠ 0)
  | JSVal.str s => decide (s ≠ "")
  | JSVal.emotions _ => true

/-- The expression `a || b` on property values. -/
def JSVal.or (a b : JSVal) : JSVal :=
  if a.truthy then a else b

/-- The empty object literal `{}` where an emotions object is expected. -/
def emptyObject : JSVal :=
  JSVal.emotions { fear := none, joy := none, neutral := none, sadness := none }

/-- The argument of `layer.setStyle`: an object that gives some of the path
options. -/
structure StylePatch where
  fillColor : Option String
  weight : Option ℚ
  opacity : Option ℚ
  color : Option String
  dashArray : Option String
  fillOpacity : Option ℚ
deriving DecidableEq

/-- A complete style object used as the argument of `layer.setStyle`. -/
def Style.toPatch (s : Style) : StylePatch :=
  { fillColor := some s.fillColor, weight := some s.weight, opacity := some s.opacity,
    color := some s.color, dashArray := some s.dashArray, fillOpacity := some s.fillOpacity }

/-- Modelled from the spec: the Leaflet method `layer.setStyle`, which is
called by the handlers and is not part of the sources. Each option the argument
gives replaces the option of the layer, the other options of the layer stay. -/
def setStyle (current : Style) (patch : StylePatch) : Style :=
  { fillColor := patch.fillColor.getD current.fillColor
    weight := patch.weight.getD current.weight
    opacity := patch.opacity.getD current.opacity
    color := patch.color.getD current.color
    dashArray := patch.dashArray.getD current.dashArray
    fillOpacity := patch.fillOpacity.getD current.fillOpacity }

/-- The object literal passed to `layer.setStyle` by the `mouseover`
handler. -/
def hoverPatch : StylePatch :=
  { fillColor := none, weight := some 3, opacity := none, color := some "#3b82f6",
    dashArray := some "", fillOpacity := some (9 / 10) }

/-- Modelled from the spec: the Leaflet method `layer.bringToFront`, not part
of the sources; the paint order lists the layers from back to front. -/
def bringToFront (order : List ℕ) (i : ℕ) : List ℕ :=
  (order.filter (fun k => decide (k ≠ i))) ++ [i]

/-- Modelled from the spec: the Leaflet method `layer.bringToBack`, not part
of the sources. -/
def bringToBack (order : List ℕ) (i : ℕ) : List ℕ :=
  i :: order.filter (fun k => decide (k ≠ i))

/-- The value of the state `hoveredRegion` when it is not `null`. -/
structure HoveredRegion where
  name : JSVal
  emotions : JSVal
  diaryCount : JSVal
deriving DecidableEq

/-- The object given to `onRegionClick`. -/
structure ClickedRegion where
  name : JSVal
  geoId : Option String
  emotions : JSVal
deriving DecidableEq

/-- A layer of the GeoJSON component, with the feature its handlers close
over. A path (polygon, line) carries its current path options. A marker, the
layer Leaflet makes for a `Point` geometry when no `pointToLayer` is given,
has no path options and none of the methods `setStyle`, `bringToFront`,
`bringToBack`. -/
inductive Layer where
  | path (feature : Feature) (style : Style)
  | marker (feature : Feature)
deriving DecidableEq

/-- The feature of a layer (`layer.feature`). -/
def Layer.feature : Layer → Feature
  | Layer.path feature _ => feature
  | Layer.marker feature => feature

/-- The path options of a layer, when it is a path. -/
def Layer.pathStyle : Layer → Option Style
  | Layer.path _ style => some style
  | Layer.marker _ => none

/-- The layer the GeoJSON component makes for a feature: a marker for a
`Point`, and for a line or polygon geometry a path in the style the `style`
callback gives. -/
def layerOf (feature : Feature) : Layer :=
  match feature.geometry with
  | Geometry.point _ _ => Layer.marker feature
  | Geometry.shape _ _ => Layer.path feature (styleFeature feature)

/-- The state of a mounted `MapView`: the three `useState` cells, the layers
and their paint order. -/
structure MapState where
  geoJsonData : Option GeoJson
  hoveredRegion : Option HoveredRegion
  mousePosition : ℚ × ℚ
  layers : List Layer
  order : List ℕ
deriving DecidableEq

/-- What happens to a mounted `MapView`. -/
inductive Event where
  | mouseover (i : ℕ)
  | mouseout (i : ℕ)
  | click (i : ℕ)
  | mousemove (x y : ℚ)
  | regionsLoaded (fetched : Option GeoJson) (regions : List RegionStat)

/-- The object given to `setHoveredRegion` by the `mouseover` handler. -/
def hoveredOf (feature : Feature) : HoveredRegion :=
  { name := (getPropOpt feature.properties "name").or (JSVal.str "Неизвестный регион")
    emotions := (getPropOpt feature.properties "emotions").or emptyObject
    diaryCount := (getPropOpt feature.properties "diaryCount").or (JSVal.num 0) }

/-- The object `region` built by the `click` handler. -/
def clickedOf (feature : Feature) : ClickedRegion :=
  { name := getPropOpt feature.properties "name"
    geoId := feature.id
    emotions := (getPropOpt feature.properties "emotions").or emptyObject }

/-- Replace the path options of layer `i`, a path. -/
def restyle (layers : List Layer) (i : ℕ) (f : Feature → Style → Style) : List Layer :=
  layers.modify
    (fun l =>
      match l with
      | Layer.path feature style => Layer.path feature (f feature style)
      | Layer.marker feature => Layer.marker feature)
    i

/-- One event of the component: the state after it and the calls of
`onRegionClick` it makes. An event on a layer that does not exist does
nothing. On a marker the `mouseover` and `mouseout` handlers throw at their
first statement, `layer.setStyle(...)`, which is not a function there, so
`setHoveredRegion` is not reached and the state stays as it was; the `click`
handler calls no method of the layer. The last case is the completion of
`loadGeoJson` after the `regions` prop changed: the effect calls
`setGeoJsonData` and nothing else. -/
def step (s : MapState) : Event → MapState × List ClickedRegion
  | Event.mouseover i =>
    match s.layers[i]? with
    | none => (s, [])
    | some (Layer.marker _) => (s, [])
    | some (Layer.path feature _) =>
      ({ s with
          layers := restyle s.layers i (fun _ style => setStyle style hoverPatch)
          order := bringToFront s.order i
          hoveredRegion := some (hoveredOf feature) }, [])
  | Event.mouseout i =>
    match s.layers[i]? with
    | none => (s, [])
    | some (Layer.marker _) => (s, [])
    | some (Layer.path _ _) =>
      ({ s with
          layers := restyle s.layers i
            (fun feature style => setStyle style (styleFeature feature).toPatch)
          order := bringToBack s.order i
          hoveredRegion := none }, [])
  | Event.click i =>
    match s.layers[i]? with
    | none => (s, [])
    | some l => (s, [clickedOf l.feature])
  | Event.mousemove x y => ({ s with mousePosition := (x, y) }, [])
  | Event.regionsLoaded fetched regions =>
    ({ s with geoJsonData := some (loadGeoJson fetched regions) }, [])

/-- The events of a list, one after the other, with all the calls of
`onRegionClick` in order. -/
def run (s : MapState) : List Event → MapState × List ClickedRegion
  | [] => (s, [])
  | e :: rest =>
    let r := step s e
    let r2 := run r.1 rest
    (r2.1, r.2 ++ r2.2)

/-- Whether the tooltip is rendered: the guard `hoveredRegion && (...)`. -/
def tooltipShown (s : MapState) : Bool :=
  s.hoveredRegion.isSome

/-- The state right after mounting with the given fused collection: no
region hovered, one layer per feature, a path in the style `styleFeature`
gives it or a marker. -/
def mounted (data : GeoJson) : MapState :=
  { geoJsonData := some data
    hoveredRegion := none
    mousePosition := (0, 0)
    layers := data.features.map layerOf
    order := List.range data.features.length }

/-! ## The API service `services/api.js` -/

/-- A settled promise: the value it resolves to, or the message of the
error it rejects with. -/
abbrev Settled (α : Type) := Except String α

/-- The response object `fetch` resolves to, as far as the service reads it;
`json` is the settled result of `response.json()`, which rejects when the body
is not JSON. -/
structure Response (J : Type) where
  ok : Bool
  statusText : String
  json : Settled J

/-- The function `fetchMapData(year)`. The constant `API_URL` and the global
`fetch` are parameters. -/
def fetchMapData {J : Type} (API_URL : String) (fetch : String → Settled (Response J))
    (year : ℕ) : Settled J :=
  match fetch (API_URL ++ "/api/map/" ++ toString year) with
  | Except.error e => Except.error e
  | Except.ok response =>
    if !response.ok then
      Except.error ("Failed to fetch map data: " ++ response.statusText)
    else
      response.json

/-- The function `fetchRegionDetail(year, regionName)`. The built-in
`encodeURIComponent` is a parameter. -/
def fetchRegionDetail {J : Type} (API_URL : String) (fetch : String → Settled (Response J))
    (encodeURIComponent : String → String) (year : ℕ) (regionName : String) : Settled J :=
  let encodedRegion := encodeURIComponent regionName
  match fetch (API_URL ++ "/api/region/" ++ toString year ++ "/" ++ encodedRegion) with
  | Except.error e => Except.error e
  | Except.ok response =>
    if !response.ok then
      Except.error ("Failed to fetch region detail: " ++ response.statusText)
    else
      response.json

/-- The function `checkHealth()`. -/
def checkHealth {J : Type} (API_URL : String) (fetch : String → Settled (Response J)) :
    Settled J :=
  match fetch (API_URL ++ "/api/health") with
  | Except.error e => Except.error e
  | Except.ok response =>
    if !response.ok then
      Except.error "Health check failed"
    else
      response.json

/-- A `fetch` that resolves to the given response, whatever the address. -/
def respondWith {J : Type} (response : Response J) : String → Settled (Response J) :=
  fun _ => Except.ok response

/-! ## Vocabulary of the statements -/

/-- The text `rgb(r, g, b)` for three integers, as a template literal
prints it. -/
def rgbText (r g b : ℤ) : String :=
  "rgb(" ++ toString r ++ ", " ++ toString g ++ ", " ++ toString b ++ ")"

/-- A colour of the red scale of `getEmotionColor`: the red channel carries
an intensity, green and blue carry `Math.floor(intensity * 0.3)`. -/
def RedScale (c : String) : Prop :=
  ∃ i : ℤ, c = rgbText i ⌊dMul (i : ℚ) (3 / 10)⌋ ⌊dMul (i : ℚ) (3 / 10)⌋

/-- A colour of the green scale of `getEmotionColor`: the green channel
carries an intensity, red and blue carry `Math.floor(intensity * 0.3)`. -/
def GreenScale (c : String) : Prop :=
  ∃ i : ℤ, c = rgbText ⌊dMul (i : ℚ) (3 / 10)⌋ i ⌊dMul (i : ℚ) (3 / 10)⌋

/-- The largest of four numbers, as `Math.max` returns it on numbers. -/
def max4 (f j n s : ℚ) : ℚ := max (max (max f j) n) s

/-- An emotions object with its four fields present. -/
def Emotions.full (fear joy neutral sadness : ℚ) : Emotions :=
  { fear := some fear, joy := some joy, neutral := some neutral, sadness := some sadness }

/-! ## Sample data -/

/-- A region statistic dominated by fear. -/
def statFear (name : String) : RegionStat :=
  { name := some name, emotions := some (Emotions.full (6 / 10) (1 / 10) (2 / 10) (1 / 10)),
    diary_count := some 14, geo_id := none }

/-- A region statistic dominated by joy. -/
def statJoy (name : String) : RegionStat :=
  { name := some name, emotions := some (Emotions.full (1 / 10) (6 / 10) (2 / 10) (1 / 10)),
    diary_count := some 3, geo_id := none }

/-- A geometry record with the given region name. -/
def namedShape (name : String) : Feature :=
  { type := "Feature", id := none, properties := some [("name", JSVal.str name)],
    geometry := Geometry.shape "Polygon" [] }

/-- A geometry file with one record per given name. -/
def geoOf (names : List String) : GeoJson :=
  { type := "FeatureCollection", features := names.map namedShape }

/-- A region statistic whose `geo_id` is the empty string. -/
def statEmptyId : RegionStat :=
  { name := some "Moscow", emotions := none, diary_count := none, geo_id := some "" }

/-- A region statistic whose emotions object lacks the field `sadness`. -/
def statNoSadness : RegionStat :=
  { name := some "Moscow",
    emotions := some
      { fear := some (6 / 10), joy := some (1 / 10), neutral := some (2 / 10), sadness := none },
    diary_count := some 14, geo_id := none }

/-- The fused collection of two regions, one with statistics. -/
def twoRegions : GeoJson :=
  loadGeoJson (some (geoOf ["Moscow", "Kiev"])) [statFear "Moscow"]

/-- A response with status 200 whose body is an HTML page. -/
def htmlResponse : Response String :=
  { ok := true, statusText := "OK", json := Except.error "Unexpected token < in JSON" }

/-- A response with status 404. -/
def notFound : Response String :=
  { ok := false, statusText := "Not Found", json := Except.error "Unexpected end of JSON input" }

/-- A response with status 200 and a JSON body (kept as text). -/
def healthy : Response String :=
  { ok := true, statusText := "OK", json := Except.ok "status ok" }

/-! ## Lemmas on the colour rule -/

/-! ### Binary64 rounding -/

theorem roundHalfEven_eq_of_near (m : ℚ) (k : ℤ) (h1 : (k : ℚ) - 1 / 2 < m)
    (h2 : m < (k : ℚ) + 1 / 2) : roundHalfEven m = k := by
  by_cases hk : (k : ℚ) ≤ m
  · have hfl : ⌊m⌋ = k := by
      rw [Int.floor_eq_iff]
      constructor
      · exact hk
      · linarith
    unfold roundHalfEven
    rw [hfl, if_pos (by linarith)]
  · have hk2 : m < (k : ℚ) := lt_of_not_le hk
    have hfl : ⌊m⌋ = k - 1 := by
      rw [Int.floor_eq_iff]
      push_cast
      constructor
      · linarith
      · linarith
    unfold roundHalfEven
    rw [hfl]
    push_cast
    rw [if_neg (by linarith), if_pos (by linarith)]
    ring

theorem roundHalfEven_eq_of_tie (m : ℚ) (k0 k : ℤ) (hm : m = (k0 : ℚ) + 1 / 2)
    (hk : (k = k0 ∧ k0 % 2 = 0) ∨ (k = k0 + 1 ∧ k0 % 2 = 1)) : roundHalfEven m = k := by
  have hfl : ⌊m⌋ = k0 := by
    rw [Int.floor_eq_iff]
    constructor
    · linarith
    · linarith
  unfold roundHalfEven
  rw [hfl, hm]
  rw [if_neg (by linarith), if_neg (by linarith)]
  rcases hk with ⟨h1, h2⟩ | ⟨h1, h2⟩
  · rw [if_pos h2, h1]
  · rw [if_neg (by omega), h1]

theorem log_two_eq (q : ℚ) (E : ℤ) (hlo : (2 : ℚ) ^ E ≤ |q|) (hhi : |q| < (2 : ℚ) ^ (E + 1)) :
    Int.log 2 |q| = E := by
  have hpos : (0 : ℚ) < |q| := lt_of_lt_of_le (zpow_pos (by norm_num) E) hlo
  have hb : 1 < 2 := by norm_num
  have h3 : E ≤ Int.log 2 |q| := (Int.zpow_le_iff_le_log hb hpos).1 (by exact_mod_cast hlo)
  have h4 : Int.log 2 |q| < E + 1 := (Int.lt_zpow_iff_log_lt hb hpos).1 (by exact_mod_cast hhi)
  omega

/-- A certificate for one rounding: `q` lies in the binade of exponent `E`
and `k` is the integer nearest to its scaled significand. -/
theorem roundDouble_eq_of_near (q v : ℚ) (E k : ℤ) (hE : -1022 ≤ E)
    (hlo : (2 : ℚ) ^ E ≤ |q|) (hhi : |q| < (2 : ℚ) ^ (E + 1))
    (h1 : (k : ℚ) - 1 / 2 < q / 2 ^ (E - 52)) (h2 : q / 2 ^ (E - 52) < (k : ℚ) + 1 / 2)
    (hv : v = (k : ℚ) * 2 ^ (E - 52)) : roundDouble q = v := by
  have hpos : (0 : ℚ) < |q| := lt_of_lt_of_le (zpow_pos (by norm_num) E) hlo
  have hq : q ≠ 0 := abs_pos.mp hpos
  unfold roundDouble
  rw [if_neg hq]
  simp only [log_two_eq q E hlo hhi, max_eq_left hE]
  rw [roundHalfEven_eq_of_near _ k h1 h2, hv]

/-- A certificate for one rounding at a tie: the scaled significand of `q`
is `k0 + 1/2` and `k` is the even one of `k0` and `k0 + 1`. -/
theorem roundDouble_eq_of_tie (q v : ℚ) (E k0 k : ℤ) (hE : -1022 ≤ E)
    (hlo : (2 : ℚ) ^ E ≤ |q|) (hhi : |q| < (2 : ℚ) ^ (E + 1))
    (hm : q / 2 ^ (E - 52) = (k0 : ℚ) + 1 / 2)
    (hk : (k = k0 ∧ k0 % 2 = 0) ∨ (k = k0 + 1 ∧ k0 % 2 = 1))
    (hv : v = (k : ℚ) * 2 ^ (E - 52)) : roundDouble q = v := by
  have hpos : (0 : ℚ) < |q| := lt_of_lt_of_le (zpow_pos (by norm_num) E) hlo
  have hq : q ≠ 0 := abs_pos.mp hpos
  unfold roundDouble
  rw [if_neg hq]
  simp only [log_two_eq q E hlo hhi, max_eq_left hE]
  rw [roundHalfEven_eq_of_tie _ k0 k hm hk, hv]

theorem roundDouble_of_eq_zero (q : ℚ) (h : q = 0) : roundDouble q = 0 := by
  rw [h]
  simp [roundDouble]

theorem dAdd_eq (a b a2 b2 v : ℚ) (ha : roundDouble a = a2) (hb : roundDouble b = b2)
    (hv : roundDouble (a2 + b2) = v) : dAdd a b = v := by
  unfold dAdd
  rw [ha, hb, hv]

theorem dSub_eq (a b a2 b2 v : ℚ) (ha : roundDouble a = a2) (hb : roundDouble b = b2)
    (hv : roundDouble (a2 - b2) = v) : dSub a b = v := by
  unfold dSub
  rw [ha, hb, hv]

theorem dMul_eq (a b a2 b2 v : ℚ) (ha : roundDouble a = a2) (hb : roundDouble b = b2)
    (hv : roundDouble (a2 * b2) = v) : dMul a b = v := by
  unfold dMul
  rw [ha, hb, hv]

/-! ### The roundings of the vectors evaluated below -/

theorem dAdd_fs84 : dAdd (4 / 100) (8 / 10) = 3783023686991217 / 4503599627370496 :=
  dAdd_eq _ _ (5764607523034235 / 144115188075855872) (3602879701896397 / 4503599627370496) _
    (roundDouble_eq_of_near (4 / 100) (5764607523034235 / 144115188075855872) (-5) 5764607523034235
      (by norm_num) (by norm_num [abs_of_pos]) (by norm_num [abs_of_pos])
      (by norm_num) (by norm_num) (by norm_num))
    (roundDouble_eq_of_near (8 / 10) (3602879701896397 / 4503599627370496) (-1) 7205759403792794
      (by norm_num) (by norm_num [abs_of_pos]) (by norm_num [abs_of_pos])
      (by norm_num) (by norm_num) (by norm_num))
    (roundDouble_eq_of_near (5764607523034235 / 144115188075855872 + (3602879701896397 / 4503599627370496)) (3783023686991217 / 4503599627370496) (-1) 7566047373982434
      (by norm_num) (by norm_num [abs_of_pos]) (by norm_num [abs_of_pos])
      (by norm_num) (by norm_num) (by norm_num))

theorem dMul_fs84 : dMul (3783023686991217 / 4503599627370496) 100 = 5910974510923777 / 70368744177664 :=
  dMul_eq _ _ (3783023686991217 / 4503599627370496) 100 _
    (roundDouble_eq_of_near (3783023686991217 / 4503599627370496) (3783023686991217 / 4503599627370496) (-1) 7566047373982434
      (by norm_num) (by norm_num [abs_of_pos]) (by norm_num [abs_of_pos])
      (by norm_num) (by norm_num) (by norm_num))
    (roundDouble_eq_of_near (100) (100) (6) 7036874417766400
      (by norm_num) (by norm_num [abs_of_pos]) (by norm_num [abs_of_pos])
      (by norm_num) (by norm_num) (by norm_num))
    (roundDouble_eq_of_near ((3783023686991217 / 4503599627370496) * 100) (5910974510923777 / 70368744177664) (6) 5910974510923777
      (by norm_num) (by norm_num [abs_of_pos]) (by norm_num [abs_of_pos])
      (by norm_num) (by norm_num) (by norm_num))

theorem dSub_fs84 : dSub 200 (5910974510923777 / 70368744177664) = 8162774324609023 / 70368744177664 :=
  dSub_eq _ _ 200 (5910974510923777 / 70368744177664) _
    (roundDouble_eq_of_near (200) (200) (7) 7036874417766400
      (by norm_num) (by norm_num [abs_of_pos]) (by norm_num [abs_of_pos])
      (by norm_num) (by norm_num) (by norm_num))
    (roundDouble_eq_of_near (5910974510923777 / 70368744177664) (5910974510923777 / 70368744177664) (6) 5910974510923777
      (by norm_num) (by norm_num [abs_of_pos]) (by norm_num [abs_of_pos])
      (by norm_num) (by norm_num) (by norm_num))
    (roundDouble_eq_of_near (200 - (5910974510923777 / 70368744177664)) (8162774324609023 / 70368744177664) (6) 8162774324609023
      (by norm_num) (by norm_num [abs_of_pos]) (by norm_num [abs_of_pos])
      (by norm_num) (by norm_num) (by norm_num))

theorem dMul_fs84_tenths : dMul (((115 : ℤ) : ℚ)) (3 / 10) = 69 / 2 :=
  dMul_eq _ _ 115 (5404319552844595 / 18014398509481984) _
    (roundDouble_eq_of_near (((115 : ℤ) : ℚ)) (115) (6) 8092405580431360
      (by norm_num) (by norm_num [abs_of_pos]) (by norm_num [abs_of_pos])
      (by norm_num) (by norm_num) (by norm_num))
    (roundDouble_eq_of_near (3 / 10) (5404319552844595 / 18014398509481984) (-2) 5404319552844595
      (by norm_num) (by norm_num [abs_of_pos]) (by norm_num [abs_of_pos])
      (by norm_num) (by norm_num) (by norm_num))
    (roundDouble_eq_of_near (115 * (5404319552844595 / 18014398509481984)) (69 / 2) (5) 4855443348258816
      (by norm_num) (by norm_num [abs_of_pos]) (by norm_num [abs_of_pos])
      (by norm_num) (by norm_num) (by norm_num))

theorem dAdd_fs110 : dAdd (6 / 10) (5 / 10) = 2476979795053773 / 2251799813685248 :=
  dAdd_eq _ _ (5404319552844595 / 9007199254740992) (1 / 2) _
    (roundDouble_eq_of_near (6 / 10) (5404319552844595 / 9007199254740992) (-1) 5404319552844595
      (by norm_num) (by norm_num [abs_of_pos]) (by norm_num [abs_of_pos])
      (by norm_num) (by norm_num) (by norm_num))
    (roundDouble_eq_of_near (5 / 10) (1 / 2) (-1) 4503599627370496
      (by norm_num) (by norm_num [abs_of_pos]) (by norm_num [abs_of_pos])
      (by norm_num) (by norm_num) (by norm_num))
    (roundDouble_eq_of_tie (5404319552844595 / 9007199254740992 + (1 / 2)) (2476979795053773 / 2251799813685248) (0) 4953959590107545 4953959590107546
      (by norm_num) (by norm_num [abs_of_pos]) (by norm_num [abs_of_pos])
      (by norm_num) (by decide) (by norm_num))

theorem dMul_fs110 : dMul (2476979795053773 / 2251799813685248) 100 = 7740561859543041 / 70368744177664 :=
  dMul_eq _ _ (2476979795053773 / 2251799813685248) 100 _
    (roundDouble_eq_of_near (2476979795053773 / 2251799813685248) (2476979795053773 / 2251799813685248) (0) 4953959590107546
      (by norm_num) (by norm_num [abs_of_pos]) (by norm_num [abs_of_pos])
      (by norm_num) (by norm_num) (by norm_num))
    (roundDouble_eq_of_near (100) (100) (6) 7036874417766400
      (by norm_num) (by norm_num [abs_of_pos]) (by norm_num [abs_of_pos])
      (by norm_num) (by norm_num) (by norm_num))
    (roundDouble_eq_of_near ((2476979795053773 / 2251799813685248) * 100) (7740561859543041 / 70368744177664) (6) 7740561859543041
      (by norm_num) (by norm_num [abs_of_pos]) (by norm_num [abs_of_pos])
      (by norm_num) (by norm_num) (by norm_num))

theorem dSub_fs110 : dSub 200 (7740561859543041 / 70368744177664) = 6333186975989759 / 70368744177664 :=
  dSub_eq _ _ 200 (7740561859543041 / 70368744177664) _
    (roundDouble_eq_of_near (200) (200) (7) 7036874417766400
      (by norm_num) (by norm_num [abs_of_pos]) (by norm_num [abs_of_pos])
      (by norm_num) (by norm_num) (by norm_num))
    (roundDouble_eq_of_near (7740561859543041 / 70368744177664) (7740561859543041 / 70368744177664) (6) 7740561859543041
      (by norm_num) (by norm_num [abs_of_pos]) (by norm_num [abs_of_pos])
      (by norm_num) (by norm_num) (by norm_num))
    (roundDouble_eq_of_near (200 - (7740561859543041 / 70368744177664)) (6333186975989759 / 70368744177664) (6) 6333186975989759
      (by norm_num) (by norm_num [abs_of_pos]) (by norm_num [abs_of_pos])
      (by norm_num) (by norm_num) (by norm_num))

theorem dMul_fs110_tenths : dMul (((89 : ℤ) : ℚ)) (3 / 10) = 7515381878174515 / 281474976710656 :=
  dMul_eq _ _ 89 (5404319552844595 / 18014398509481984) _
    (roundDouble_eq_of_near (((89 : ℤ) : ℚ)) (89) (6) 6262818231812096
      (by norm_num) (by norm_num [abs_of_pos]) (by norm_num [abs_of_pos])
      (by norm_num) (by norm_num) (by norm_num))
    (roundDouble_eq_of_near (3 / 10) (5404319552844595 / 18014398509481984) (-2) 5404319552844595
      (by norm_num) (by norm_num [abs_of_pos]) (by norm_num [abs_of_pos])
      (by norm_num) (by norm_num) (by norm_num))
    (roundDouble_eq_of_near (89 * (5404319552844595 / 18014398509481984)) (7515381878174515 / 281474976710656) (4) 7515381878174515
      (by norm_num) (by norm_num [abs_of_pos]) (by norm_num [abs_of_pos])
      (by norm_num) (by norm_num) (by norm_num))

theorem dAdd_fs60 : dAdd (6 / 10) 0 = 5404319552844595 / 9007199254740992 :=
  dAdd_eq _ _ (5404319552844595 / 9007199254740992) 0 _
    (roundDouble_eq_of_near (6 / 10) (5404319552844595 / 9007199254740992) (-1) 5404319552844595
      (by norm_num) (by norm_num [abs_of_pos]) (by norm_num [abs_of_pos])
      (by norm_num) (by norm_num) (by norm_num))
    (roundDouble_of_eq_zero (0) (by norm_num))
    (roundDouble_eq_of_near (5404319552844595 / 9007199254740992 + 0) (5404319552844595 / 9007199254740992) (-1) 5404319552844595
      (by norm_num) (by norm_num [abs_of_pos]) (by norm_num [abs_of_pos])
      (by norm_num) (by norm_num) (by norm_num))

theorem dMul_fs60 : dMul (5404319552844595 / 9007199254740992) 100 = 60 :=
  dMul_eq _ _ (5404319552844595 / 9007199254740992) 100 _
    (roundDouble_eq_of_near (5404319552844595 / 9007199254740992) (5404319552844595 / 9007199254740992) (-1) 5404319552844595
      (by norm_num) (by norm_num [abs_of_pos]) (by norm_num [abs_of_pos])
      (by norm_num) (by norm_num) (by norm_num))
    (roundDouble_eq_of_near (100) (100) (6) 7036874417766400
      (by norm_num) (by norm_num [abs_of_pos]) (by norm_num [abs_of_pos])
      (by norm_num) (by norm_num) (by norm_num))
    (roundDouble_eq_of_near ((5404319552844595 / 9007199254740992) * 100) (60) (5) 8444249301319680
      (by norm_num) (by norm_num [abs_of_pos]) (by norm_num [abs_of_pos])
      (by norm_num) (by norm_num) (by norm_num))

theorem dSub_fs60 : dSub 200 60 = 140 :=
  dSub_eq _ _ 200 60 _
    (roundDouble_eq_of_near (200) (200) (7) 7036874417766400
      (by norm_num) (by norm_num [abs_of_pos]) (by norm_num [abs_of_pos])
      (by norm_num) (by norm_num) (by norm_num))
    (roundDouble_eq_of_near (60) (60) (5) 8444249301319680
      (by norm_num) (by norm_num [abs_of_pos]) (by norm_num [abs_of_pos])
      (by norm_num) (by norm_num) (by norm_num))
    (roundDouble_eq_of_near (200 - 60) (140) (7) 4925812092436480
      (by norm_num) (by norm_num [abs_of_pos]) (by norm_num [abs_of_pos])
      (by norm_num) (by norm_num) (by norm_num))

theorem dMul_fs60_tenths : dMul (((140 : ℤ) : ℚ)) (3 / 10) = 42 :=
  dMul_eq _ _ 140 (5404319552844595 / 18014398509481984) _
    (roundDouble_eq_of_near (((140 : ℤ) : ℚ)) (140) (7) 4925812092436480
      (by norm_num) (by norm_num [abs_of_pos]) (by norm_num [abs_of_pos])
      (by norm_num) (by norm_num) (by norm_num))
    (roundDouble_eq_of_near (3 / 10) (5404319552844595 / 18014398509481984) (-2) 5404319552844595
      (by norm_num) (by norm_num [abs_of_pos]) (by norm_num [abs_of_pos])
      (by norm_num) (by norm_num) (by norm_num))
    (roundDouble_eq_of_near (140 * (5404319552844595 / 18014398509481984)) (42) (5) 5910974510923776
      (by norm_num) (by norm_num [abs_of_pos]) (by norm_num [abs_of_pos])
      (by norm_num) (by norm_num) (by norm_num))

theorem dMul_j40 : dMul (4 / 10) 100 = 40 :=
  dMul_eq _ _ (3602879701896397 / 9007199254740992) 100 _
    (roundDouble_eq_of_near (4 / 10) (3602879701896397 / 9007199254740992) (-2) 7205759403792794
      (by norm_num) (by norm_num [abs_of_pos]) (by norm_num [abs_of_pos])
      (by norm_num) (by norm_num) (by norm_num))
    (roundDouble_eq_of_near (100) (100) (6) 7036874417766400
      (by norm_num) (by norm_num [abs_of_pos]) (by norm_num [abs_of_pos])
      (by norm_num) (by norm_num) (by norm_num))
    (roundDouble_eq_of_near ((3602879701896397 / 9007199254740992) * 100) (40) (5) 5629499534213120
      (by norm_num) (by norm_num [abs_of_pos]) (by norm_num [abs_of_pos])
      (by norm_num) (by norm_num) (by norm_num))

theorem dSub_j40 : dSub 200 40 = 160 :=
  dSub_eq _ _ 200 40 _
    (roundDouble_eq_of_near (200) (200) (7) 7036874417766400
      (by norm_num) (by norm_num [abs_of_pos]) (by norm_num [abs_of_pos])
      (by norm_num) (by norm_num) (by norm_num))
    (roundDouble_eq_of_near (40) (40) (5) 5629499534213120
      (by norm_num) (by norm_num [abs_of_pos]) (by norm_num [abs_of_pos])
      (by norm_num) (by norm_num) (by norm_num))
    (roundDouble_eq_of_near (200 - 40) (160) (7) 5629499534213120
      (by norm_num) (by norm_num [abs_of_pos]) (by norm_num [abs_of_pos])
      (by norm_num) (by norm_num) (by norm_num))

theorem dMul_j40_tenths : dMul (((160 : ℤ) : ℚ)) (3 / 10) = 48 :=
  dMul_eq _ _ 160 (5404319552844595 / 18014398509481984) _
    (roundDouble_eq_of_near (((160 : ℤ) : ℚ)) (160) (7) 5629499534213120
      (by norm_num) (by norm_num [abs_of_pos]) (by norm_num [abs_of_pos])
      (by norm_num) (by norm_num) (by norm_num))
    (roundDouble_eq_of_near (3 / 10) (5404319552844595 / 18014398509481984) (-2) 5404319552844595
      (by norm_num) (by norm_num [abs_of_pos]) (by norm_num [abs_of_pos])
      (by norm_num) (by norm_num) (by norm_num))
    (roundDouble_eq_of_near (160 * (5404319552844595 / 18014398509481984)) (48) (5) 6755399441055744
      (by norm_num) (by norm_num [abs_of_pos]) (by norm_num [abs_of_pos])
      (by norm_num) (by norm_num) (by norm_num))

theorem dMul_j200 : dMul 2 100 = 200 :=
  dMul_eq _ _ 2 100 _
    (roundDouble_eq_of_near (2) (2) (1) 4503599627370496
      (by norm_num) (by norm_num [abs_of_pos]) (by norm_num [abs_of_pos])
      (by norm_num) (by norm_num) (by norm_num))
    (roundDouble_eq_of_near (100) (100) (6) 7036874417766400
      (by norm_num) (by norm_num [abs_of_pos]) (by norm_num [abs_of_pos])
      (by norm_num) (by norm_num) (by norm_num))
    (roundDouble_eq_of_near (2 * 100) (200) (7) 7036874417766400
      (by norm_num) (by norm_num [abs_of_pos]) (by norm_num [abs_of_pos])
      (by norm_num) (by norm_num) (by norm_num))

theorem dSub_j200 : dSub 200 200 = 0 :=
  dSub_eq _ _ 200 200 _
    (roundDouble_eq_of_near (200) (200) (7) 7036874417766400
      (by norm_num) (by norm_num [abs_of_pos]) (by norm_num [abs_of_pos])
      (by norm_num) (by norm_num) (by norm_num))
    (roundDouble_eq_of_near (200) (200) (7) 7036874417766400
      (by norm_num) (by norm_num [abs_of_pos]) (by norm_num [abs_of_pos])
      (by norm_num) (by norm_num) (by norm_num))
    (roundDouble_of_eq_zero (200 - 200) (by norm_num))

theorem dMul_j200_tenths : dMul (((0 : ℤ) : ℚ)) (3 / 10) = 0 :=
  dMul_eq _ _ 0 (5404319552844595 / 18014398509481984) _
    (roundDouble_of_eq_zero (((0 : ℤ) : ℚ)) (by norm_num))
    (roundDouble_eq_of_near (3 / 10) (5404319552844595 / 18014398509481984) (-2) 5404319552844595
      (by norm_num) (by norm_num [abs_of_pos]) (by norm_num [abs_of_pos])
      (by norm_num) (by norm_num) (by norm_num))
    (roundDouble_of_eq_zero (0 * (5404319552844595 / 18014398509481984)) (by norm_num))

theorem dAdd_fs200 : dAdd 1 1 = 2 :=
  dAdd_eq _ _ 1 1 _
    (roundDouble_eq_of_near (1) (1) (0) 4503599627370496
      (by norm_num) (by norm_num [abs_of_pos]) (by norm_num [abs_of_pos])
      (by norm_num) (by norm_num) (by norm_num))
    (roundDouble_eq_of_near (1) (1) (0) 4503599627370496
      (by norm_num) (by norm_num [abs_of_pos]) (by norm_num [abs_of_pos])
      (by norm_num) (by norm_num) (by norm_num))
    (roundDouble_eq_of_near (1 + 1) (2) (1) 4503599627370496
      (by norm_num) (by norm_num [abs_of_pos]) (by norm_num [abs_of_pos])
      (by norm_num) (by norm_num) (by norm_num))

/-! ### The colour rule -/


theorem rgb_fin (r g b : ℤ) :
    rgb (JSNumber.fin r) (JSNumber.fin g) (JSNumber.fin b) = rgbText r g b := by
  simp [rgb, rgbText, JSNumber.render]

theorem rgbText_ne_gray (r g b : ℤ) : rgbText r g b ≠ "#e5e7eb" := by
  intro h
  have h2 := congrArg String.data h
  simp [rgbText, String.data_append] at h2

theorem mathMax_full (f j n s : ℚ) :
    mathMax (some f) (some j) (some n) (some s) = JSNumber.fin (max4 f j n s) := by
  simp [mathMax, max4, JSNumber.max2, JSNumber.ofField]

/-- On a vector with four numbers the rule is a chain of two tests on the
largest component. -/
theorem getEmotionColor_full (f j n s : ℚ) :
    getEmotionColor (some (Emotions.full f j n s)) =
      if max4 f j n s = f ∨ max4 f j n s = s then
        rgbText ⌊dSub 200 (dMul (dAdd f s) 100)⌋
          ⌊dMul ((⌊dSub 200 (dMul (dAdd f s) 100)⌋ : ℤ) : ℚ) (3 / 10)⌋
          ⌊dMul ((⌊dSub 200 (dMul (dAdd f s) 100)⌋ : ℤ) : ℚ) (3 / 10)⌋
      else if max4 f j n s = j then
        rgbText ⌊dMul ((⌊dSub 200 (dMul j 100)⌋ : ℤ) : ℚ) (3 / 10)⌋
          ⌊dSub 200 (dMul j 100)⌋
          ⌊dMul ((⌊dSub 200 (dMul j 100)⌋ : ℤ) : ℚ) (3 / 10)⌋
      else "#e5e7eb" := by
  simp only [getEmotionColor, Emotions.full, mathMax_full, JSNumber.strictEq, JSNumber.ofField,
    JSNumber.add, JSNumber.mul, JSNumber.sub, JSNumber.floor, rgb_fin, Bool.or_eq_true,
    decide_eq_true_eq]

/-- The red branch, evaluated step by step. -/
theorem red_eval (f j n s c d g u : ℚ) (i k : ℤ)
    (hb : max4 f j n s = f ∨ max4 f j n s = s)
    (h1 : dAdd f s = c) (h2 : dMul c 100 = d) (h3 : dSub 200 d = g) (hi : ⌊g⌋ = i)
    (h4 : dMul (i : ℚ) (3 / 10) = u) (hk : ⌊u⌋ = k) :
    getEmotionColor (some (Emotions.full f j n s)) = rgbText i k k := by
  rw [getEmotionColor_full, if_pos hb, h1, h2, h3, hi, h4, hk]

/-- The green branch, evaluated step by step. -/
theorem green_eval (f j n s d g u : ℚ) (i k : ℤ)
    (hb : ¬ (max4 f j n s = f ∨ max4 f j n s = s)) (hj : max4 f j n s = j)
    (h2 : dMul j 100 = d) (h3 : dSub 200 d = g) (hi : ⌊g⌋ = i)
    (h4 : dMul (i : ℚ) (3 / 10) = u) (hk : ⌊u⌋ = k) :
    getEmotionColor (some (Emotions.full f j n s)) = rgbText k i k := by
  rw [getEmotionColor_full, if_neg hb, if_pos hj, h2, h3, hi, h4, hk]

theorem max4_eq_fear_iff (f j n s : ℚ) : max4 f j n s = f ↔ j ≤ f ∧ n ≤ f ∧ s ≤ f := by
  constructor
  · intro h
    have hj : j ≤ max4 f j n s := by simp [max4]
    have hn : n ≤ max4 f j n s := by simp [max4]
    have hs : s ≤ max4 f j n s := by simp [max4]
    rw [h] at hj hn hs
    exact ⟨hj, hn, hs⟩
  · rintro ⟨hj, hn, hs⟩
    simp [max4, hj, hn, hs]

theorem max4_eq_sadness_iff (f j n s : ℚ) : max4 f j n s = s ↔ f ≤ s ∧ j ≤ s ∧ n ≤ s := by
  constructor
  · intro h
    have hf : f ≤ max4 f j n s := by simp [max4]
    have hj : j ≤ max4 f j n s := by simp [max4]
    have hn : n ≤ max4 f j n s := by simp [max4]
    rw [h] at hf hj hn
    exact ⟨hf, hj, hn⟩
  · rintro ⟨hf, hj, hn⟩
    simp [max4, hf, hj, hn]

theorem max4_eq_joy_iff (f j n s : ℚ) : max4 f j n s = j ↔ f ≤ j ∧ n ≤ j ∧ s ≤ j := by
  constructor
  · intro h
    have hf : f ≤ max4 f j n s := by simp [max4]
    have hn : n ≤ max4 f j n s := by simp [max4]
    have hs : s ≤ max4 f j n s := by simp [max4]
    rw [h] at hf hn hs
    exact ⟨hf, hn, hs⟩
  · rintro ⟨hf, hn, hs⟩
    simp [max4, hf, hn, hs]

theorem redScale_of_top (f j n s : ℚ) (h : max4 f j n s = f ∨ max4 f j n s = s) :
    RedScale (getEmotionColor (some (Emotions.full f j n s))) := by
  rw [getEmotionColor_full, if_pos h]
  exact ⟨_, rfl⟩

theorem greenScale_of_top (f j n s : ℚ) (h : ¬ (max4 f j n s = f ∨ max4 f j n s = s))
    (hj : max4 f j n s = j) :
    GreenScale (getEmotionColor (some (Emotions.full f j n s))) := by
  rw [getEmotionColor_full, if_neg h, if_pos hj]
  exact ⟨_, rfl⟩

theorem gray_iff (f j n s : ℚ) :
    getEmotionColor (some (Emotions.full f j n s)) = "#e5e7eb" ↔
      ¬ (max4 f j n s = f ∨ max4 f j n s = s) ∧ max4 f j n s ≠ j := by
  rw [getEmotionColor_full]
  by_cases h : max4 f j n s = f ∨ max4 f j n s = s
  · rw [if_pos h]
    constructor
    · intro hc
      exact absurd hc (rgbText_ne_gray _ _ _)
    · intro hc
      exact absurd h hc.1
  · rw [if_neg h]
    by_cases hj : max4 f j n s = j
    · rw [if_pos hj]
      constructor
      · intro hc
        exact absurd hc (rgbText_ne_gray _ _ _)
      · intro hc
        exact absurd hj hc.2
    · rw [if_neg hj]
      exact ⟨fun _ => ⟨h, hj⟩, fun _ => rfl⟩

/-! ## C1: branch precedence of `getEmotionColor` -/

theorem redScale_not_gray : ¬ RedScale "#e5e7eb" := by
  rintro ⟨i, hi⟩
  exact rgbText_ne_gray _ _ _ hi.symm

theorem greenScale_not_gray : ¬ GreenScale "#e5e7eb" := by
  rintro ⟨i, hi⟩
  exact rgbText_ne_gray _ _ _ hi.symm

theorem getEmotionColor_joy_two :
    getEmotionColor (some (Emotions.full 0 2 0 0)) = "rgb(0, 0, 0)" := by
  rw [green_eval 0 2 0 0 200 0 0 0 0 (by norm_num [max4]) (by norm_num [max4])
    dMul_j200 dSub_j200 (by norm_num) dMul_j200_tenths (by norm_num)]
  decide

/-- C1 (as stated, refuted). With `joy = 2` and the other components 0 the
largest component equals `joy` and neither `fear` nor `sadness`, and the
result of the joy branch is `rgb(0, 0, 0)`, which is a colour of the red scale
(the red branch returns it at `fear = sadness = 1`): a red-scale colour is
returned although `max` equals neither `fear` nor `sadness`. -/
theorem joy_branch_returns_red_scale :
    max4 0 2 0 0 = 2 ∧
    ¬ (max4 0 2 0 0 = 0 ∨ max4 0 2 0 0 = 0) ∧
    getEmotionColor (some (Emotions.full 0 2 0 0)) = "rgb(0, 0, 0)" ∧
    getEmotionColor (some (Emotions.full 1 0 0 1)) = "rgb(0, 0, 0)" ∧
    RedScale (getEmotionColor (some (Emotions.full 0 2 0 0))) := by
  refine ⟨by norm_num [max4], by norm_num [max4], getEmotionColor_joy_two, ?_, ?_⟩
  · rw [red_eval 1 0 0 1 2 200 0 0 0 0 (by norm_num [max4]) dAdd_fs200 dMul_j200 dSub_j200
      (by norm_num) dMul_j200_tenths (by norm_num)]
    decide
  · rw [getEmotionColor_joy_two]
    refine ⟨0, ?_⟩
    rw [dMul_j200_tenths]
    norm_num
    decide

/-- C1 (amended). For every emotion vector with four numeric fields, with
`max` the largest of the four, `getEmotionColor` selects its branch by the
precedence (fear-or-sadness) > joy > neutral: it returns a colour of the red
scale when `max` equals `fear` or `sadness`; otherwise a colour of the green
scale exactly when `max` equals `joy`; otherwise the gray constant `#e5e7eb`,
which it returns in no other case. A colour of the red scale is returned in
the first case only, except for a colour that belongs to both scales, which
the joy branch returns as well. In particular `fear = sadness = max > joy,
neutral` gives red, `fear = joy = max` gives red, and `joy = neutral = max >
fear, sadness` gives green. -/
theorem getEmotionColor_precedence (f j n s : ℚ) :
    ((max4 f j n s = f ∨ max4 f j n s = s) →
        RedScale (getEmotionColor (some (Emotions.full f j n s)))) ∧
    (¬ (max4 f j n s = f ∨ max4 f j n s = s) → max4 f j n s = j →
        GreenScale (getEmotionColor (some (Emotions.full f j n s)))) ∧
    (¬ (max4 f j n s = f ∨ max4 f j n s = s) → max4 f j n s ≠ j →
        getEmotionColor (some (Emotions.full f j n s)) = "#e5e7eb") ∧
    (getEmotionColor (some (Emotions.full f j n s)) = "#e5e7eb" ↔
        ¬ (max4 f j n s = f ∨ max4 f j n s = s) ∧ max4 f j n s ≠ j) ∧
    (f = s → j < f → n < f →
        RedScale (getEmotionColor (some (Emotions.full f j n s)))) ∧
    (f = j → n ≤ f → s ≤ f →
        RedScale (getEmotionColor (some (Emotions.full f j n s)))) ∧
    (j = n → f < j → s < j →
        GreenScale (getEmotionColor (some (Emotions.full f j n s)))) ∧
    (RedScale (getEmotionColor (some (Emotions.full f j n s))) →
        (max4 f j n s = f ∨ max4 f j n s = s) ∨
        (max4 f j n s = j ∧ GreenScale (getEmotionColor (some (Emotions.full f j n s))))) ∧
    (¬ (max4 f j n s = f ∨ max4 f j n s = s) →
        (GreenScale (getEmotionColor (some (Emotions.full f j n s))) ↔ max4 f j n s = j)) := by
  refine ⟨redScale_of_top f j n s, greenScale_of_top f j n s, ?_, gray_iff f j n s, ?_, ?_, ?_,
    ?_, ?_⟩
  · intro h hj
    exact (gray_iff f j n s).2 ⟨h, hj⟩
  · intro hfs hj hn
    apply redScale_of_top
    left
    rw [max4_eq_fear_iff]
    exact ⟨le_of_lt hj, le_of_lt hn, le_of_eq hfs.symm⟩
  · intro hfj hn hs
    apply redScale_of_top
    left
    rw [max4_eq_fear_iff]
    exact ⟨le_of_eq hfj.symm, hn, hs⟩
  · intro hjn hf hs
    apply greenScale_of_top
    · rintro (h | h)
      · rw [max4_eq_fear_iff] at h
        exact absurd h.1 (not_le_of_lt hf)
      · rw [max4_eq_sadness_iff] at h
        exact absurd h.2.1 (not_le_of_lt hs)
    · rw [max4_eq_joy_iff]
      exact ⟨le_of_lt hf, le_of_eq hjn.symm, le_of_lt hs⟩
  · intro hred
    by_cases h : max4 f j n s = f ∨ max4 f j n s = s
    · exact Or.inl h
    · by_cases hj : max4 f j n s = j
      · exact Or.inr ⟨hj, greenScale_of_top f j n s h hj⟩
      · rw [(gray_iff f j n s).2 ⟨h, hj⟩] at hred
        exact absurd hred redScale_not_gray
  · intro h
    constructor
    · intro hgreen
      by_contra hj
      rw [(gray_iff f j n s).2 ⟨h, hj⟩] at hgreen
      exact greenScale_not_gray hgreen
    · intro hj
      exact greenScale_of_top f j n s h hj

/-- C1 (amended), at `fear = joy = 0.5`, `neutral = 0.2`, `sadness = 0.1`: the tie of
`fear` and `joy` at the top gives a colour of the red scale. -/
theorem getEmotionColor_precedence_witness :
    RedScale (getEmotionColor (some (Emotions.full (1 / 2) (1 / 2) (1 / 5) (1 / 10)))) :=
  (getEmotionColor_precedence (1 / 2) (1 / 2) (1 / 5) (1 / 10)).2.2.2.2.2.1 rfl
    (by norm_num) (by norm_num)

/-! ## C7: the rule in terms of the order of the components -/

/-- C7 (as stated, refuted). With `fear = sadness = 0.1` and `joy = neutral
= 0.4`, neither `fear` nor `sadness` is a maximum and `joy` is not the strict
unique maximum, yet the result is the green `rgb(48, 160, 48)`, not the
neutral constant. -/
theorem getEmotionColor_joy_neutral_tie :
    ¬ ((4 / 10 : ℚ) ≤ 1 / 10 ∧ (4 / 10 : ℚ) ≤ 1 / 10 ∧ (1 / 10 : ℚ) ≤ 1 / 10) ∧
    ¬ ((1 / 10 : ℚ) ≤ 1 / 10 ∧ (4 / 10 : ℚ) ≤ 1 / 10 ∧ (4 / 10 : ℚ) ≤ 1 / 10) ∧
    ¬ ((1 / 10 : ℚ) < 4 / 10 ∧ (4 / 10 : ℚ) < 4 / 10 ∧ (1 / 10 : ℚ) < 4 / 10) ∧
    getEmotionColor (some (Emotions.full (1 / 10) (4 / 10) (4 / 10) (1 / 10))) ≠ "#e5e7eb" ∧
    getEmotionColor (some (Emotions.full (1 / 10) (4 / 10) (4 / 10) (1 / 10))) =
      "rgb(48, 160, 48)" := by
  have hc : getEmotionColor (some (Emotions.full (1 / 10) (4 / 10) (4 / 10) (1 / 10))) =
      "rgb(48, 160, 48)" := by
    rw [green_eval (1 / 10) (4 / 10) (4 / 10) (1 / 10) 40 160 48 160 48
      (by norm_num [max4]) (by norm_num [max4]) dMul_j40 dSub_j40 (by norm_num)
      dMul_j40_tenths (by norm_num)]
    decide
  refine ⟨by norm_num, by norm_num, by norm_num, ?_, hc⟩
  rw [hc]
  decide

/-- C7 (amended). For every emotion vector with four numeric fields,
`getEmotionColor` is red-scale if `fear` or `sadness` is a maximum of the four
components, green-scale if `joy` is a maximum (alone or tied with `neutral`)
while neither `fear` nor `sadness` is, and the flat neutral constant `#e5e7eb`
when none of `fear`, `sadness`, `joy` is a maximum. -/
theorem getEmotionColor_by_order (f j n s : ℚ) :
    ((j ≤ f ∧ n ≤ f ∧ s ≤ f) ∨ (f ≤ s ∧ j ≤ s ∧ n ≤ s) →
        RedScale (getEmotionColor (some (Emotions.full f j n s)))) ∧
    (¬ (j ≤ f ∧ n ≤ f ∧ s ≤ f) → ¬ (f ≤ s ∧ j ≤ s ∧ n ≤ s) → (f ≤ j ∧ n ≤ j ∧ s ≤ j) →
        GreenScale (getEmotionColor (some (Emotions.full f j n s)))) ∧
    (¬ (j ≤ f ∧ n ≤ f ∧ s ≤ f) → ¬ (f ≤ s ∧ j ≤ s ∧ n ≤ s) → ¬ (f ≤ j ∧ n ≤ j ∧ s ≤ j) →
        getEmotionColor (some (Emotions.full f j n s)) = "#e5e7eb") := by
  have hred : (max4 f j n s = f ∨ max4 f j n s = s) ↔
      ((j ≤ f ∧ n ≤ f ∧ s ≤ f) ∨ (f ≤ s ∧ j ≤ s ∧ n ≤ s)) := by
    rw [max4_eq_fear_iff, max4_eq_sadness_iff]
  refine ⟨?_, ?_, ?_⟩
  · intro h
    exact redScale_of_top f j n s (hred.2 h)
  · intro hf hs hj
    apply greenScale_of_top
    · rw [hred]
      rintro (h | h)
      · exact hf h
      · exact hs h
    · exact (max4_eq_joy_iff f j n s).2 hj
  · intro hf hs hj
    rw [gray_iff, hred]
    refine ⟨?_, ?_⟩
    · rintro (h | h)
      · exact hf h
      · exact hs h
    · intro h
      exact hj ((max4_eq_joy_iff f j n s).1 h)

/-- C7 (amended), at `joy = neutral = 0.4` above `fear = sadness = 0.1`. -/
theorem getEmotionColor_by_order_witness :
    GreenScale (getEmotionColor (some (Emotions.full (1 / 10) (4 / 10) (4 / 10) (1 / 10)))) :=
  (getEmotionColor_by_order (1 / 10) (4 / 10) (4 / 10) (1 / 10)).2.1
    (by norm_num) (by norm_num) (by norm_num)

/-! ## C8: channel arithmetic -/

/-- C8. On the red-scale branch (the largest component equals `fear` or
`sadness`) the result is `rgb(I, G, G)` with `I` the floor of
`200 - (fear + sadness) * 100` and `G` the floor of `I * 0.3`; on the
green-scale branch (otherwise, the largest component equals `joy`) the result
is `rgb(G, I, G)` with `I` the floor of `200 - joy * 100` and `G` the floor of
`I * 0.3`. The sums, differences and products are those of the code, in
binary64 (`dAdd`, `dSub`, `dMul`), and `0.3` is the double nearest to three
tenths. -/
theorem getEmotionColor_channels (f j n s : ℚ) :
    ((max4 f j n s = f ∨ max4 f j n s = s) →
      getEmotionColor (some (Emotions.full f j n s)) =
        rgbText ⌊dSub 200 (dMul (dAdd f s) 100)⌋
          ⌊dMul ((⌊dSub 200 (dMul (dAdd f s) 100)⌋ : ℤ) : ℚ) (3 / 10)⌋
          ⌊dMul ((⌊dSub 200 (dMul (dAdd f s) 100)⌋ : ℤ) : ℚ) (3 / 10)⌋) ∧
    (¬ (max4 f j n s = f ∨ max4 f j n s = s) → max4 f j n s = j →
      getEmotionColor (some (Emotions.full f j n s)) =
        rgbText ⌊dMul ((⌊dSub 200 (dMul j 100)⌋ : ℤ) : ℚ) (3 / 10)⌋
          ⌊dSub 200 (dMul j 100)⌋
          ⌊dMul ((⌊dSub 200 (dMul j 100)⌋ : ℤ) : ℚ) (3 / 10)⌋) := by
  constructor
  · intro h
    rw [getEmotionColor_full, if_pos h]
  · intro h hj
    rw [getEmotionColor_full, if_neg h, if_pos hj]

/-- C8, at two vectors where binary64 rounding decides the channels. With
`fear = 0.04` and `sadness = 0.8` the sum is `0.8400000000000001`, the
intensity 115 (not 116) and the result `rgb(115, 34, 34)`; with `fear = 0.6`
and `sadness = 0.5` the product is `110.00000000000001`, the intensity 89 (not
90) and the result `rgb(89, 26, 26)`. -/
theorem getEmotionColor_channels_witness :
    getEmotionColor (some (Emotions.full (4 / 100) (1 / 10) (6 / 100) (8 / 10))) =
      "rgb(115, 34, 34)" ∧
    getEmotionColor (some (Emotions.full (6 / 10) (1 / 10) (2 / 10) (5 / 10))) =
      "rgb(89, 26, 26)" := by
  constructor
  · rw [(getEmotionColor_channels (4 / 100) (1 / 10) (6 / 100) (8 / 10)).1
      (by norm_num [max4])]
    rw [dAdd_fs84, dMul_fs84, dSub_fs84]
    rw [show ⌊(8162774324609023 / 70368744177664 : ℚ)⌋ = (115 : ℤ) by
      norm_num [Int.floor_eq_iff]]
    rw [dMul_fs84_tenths]
    rw [show ⌊(69 / 2 : ℚ)⌋ = (34 : ℤ) by norm_num [Int.floor_eq_iff]]
    decide
  · rw [(getEmotionColor_channels (6 / 10) (1 / 10) (2 / 10) (5 / 10)).1
      (by norm_num [max4])]
    rw [dAdd_fs110, dMul_fs110, dSub_fs110]
    rw [show ⌊(6333186975989759 / 70368744177664 : ℚ)⌋ = (89 : ℤ) by
      norm_num [Int.floor_eq_iff]]
    rw [dMul_fs110_tenths]
    rw [show ⌊(7515381878174515 / 281474976710656 : ℚ)⌋ = (26 : ℤ) by
      norm_num [Int.floor_eq_iff]]
    decide

/-! ## Lemmas on objects and on the base path -/

theorem getProp_setProp_same (p : Props) (key : String) (v : JSVal) :
    getProp (setProp p key v) key = v := by
  induction p with
  | nil => simp [setProp, getProp]
  | cons kv rest ih =>
    obtain ⟨k, w⟩ := kv
    by_cases h : k = key
    · simp [setProp, getProp, h]
    · simp [setProp, getProp, h, ih]

theorem getProp_setProp_other (p : Props) (key key2 : String) (v : JSVal) (h : key2 ≠ key) :
    getProp (setProp p key v) key2 = getProp p key2 := by
  induction p with
  | nil =>
    have h2 : ¬ key = key2 := fun e => h e.symm
    simp [setProp, getProp, h2]
  | cons kv rest ih =>
    obtain ⟨k, w⟩ := kv
    by_cases hk : k = key
    · have h2 : ¬ key = key2 := fun e => h e.symm
      simp [setProp, getProp, hk, h2]
    · by_cases hk2 : k = key2
      · subst hk2
        simp [setProp, getProp, h]
      · simp [setProp, getProp, hk, hk2, ih]

theorem getProp_spread (obj : Option Props) (key : String) :
    getProp (spread obj) key = getPropOpt obj key := by
  cases obj <;> simp [spread, getPropOpt, getProp]

/-- The statistic the base path looks up for a feature. -/
theorem attachEmotions_emotions (regions : List RegionStat) (feature : Feature) :
    getPropOpt (attachEmotions regions feature).properties "emotions" =
      JSVal.emotions
        (match (regions.find? (fun r =>
            decide (nameVal r.name = getPropOpt feature.properties "name"))).bind
            (fun r => r.emotions) with
         | some e => e
         | none => defaultEmotions) := by
  simp only [attachEmotions, getPropOpt]
  rw [getProp_setProp_other _ _ _ _ (by decide), getProp_setProp_same]

theorem attachEmotions_diaryCount (regions : List RegionStat) (feature : Feature) :
    getPropOpt (attachEmotions regions feature).properties "diaryCount" =
      JSVal.num (orZero ((regions.find? (fun r =>
            decide (nameVal r.name = getPropOpt feature.properties "name"))).bind
            (fun r => r.diary_count))) := by
  simp only [attachEmotions, getPropOpt]
  rw [getProp_setProp_same]

theorem attachEmotions_other (regions : List RegionStat) (feature : Feature) (key : String)
    (h1 : key ≠ "emotions") (h2 : key ≠ "diaryCount") :
    getPropOpt (attachEmotions regions feature).properties key =
      getPropOpt feature.properties key := by
  show getProp (setProp (setProp (spread feature.properties) "emotions" _) "diaryCount" _) key = _
  rw [getProp_setProp_other _ _ _ _ h2, getProp_setProp_other _ _ _ _ h1, getProp_spread]

theorem loadGeoJson_base_get (data : GeoJson) (regions : List RegionStat) (i : ℕ) :
    (loadGeoJson (some data) regions).features[i]? =
      (data.features[i]?).map (attachEmotions regions) := by
  simp [loadGeoJson, featuresWithEmotions]

theorem orZero_some (q : ℚ) : orZero (some q) = q := by
  by_cases h : q = 0
  · simp [orZero, h]
  · simp [orZero, h]

theorem find_first (pre post : List RegionStat) (s : RegionStat) (p : RegionStat → Bool)
    (hpre : ∀ r ∈ pre, p r = false) (hs : p s = true) :
    (pre ++ s :: post).find? p = some s := by
  induction pre with
  | nil => simp [List.find?_cons, hs]
  | cons a rest ih =>
    have ha : p a = false := hpre a (List.mem_cons_self a rest)
    have hrest : ∀ r ∈ rest, p r = false := fun r hr => hpre r (List.mem_cons_of_mem a hr)
    simp [List.find?_cons, ha, ih hrest]

theorem attachEmotions_of_first (pre post : List RegionStat) (s : RegionStat)
    (feature : Feature) (name : String)
    (hfirst : ∀ r ∈ pre, r.name ≠ s.name) (hname : s.name = some name)
    (hmatch : getPropOpt feature.properties "name" = JSVal.str name) :
    (pre ++ s :: post).find? (fun r =>
      decide (nameVal r.name = getPropOpt feature.properties "name")) = some s := by
  apply find_first
  · intro r hr
    have hne : r.name ≠ some name := fun e => hfirst r hr (e.trans hname.symm)
    rw [hmatch]
    cases hrn : r.name with
    | none => simp [nameVal]
    | some m =>
      have hm : m ≠ name := fun e => hne (by rw [hrn, e])
      simp [nameVal, hm]
  · rw [hmatch, hname]
    simp [nameVal]

/-! ## C2: round trip of the base path -/

/-- C2 (as stated, refuted). Two statistics carry the name `Moscow`; the
second has full emotion data and its name equals the name of the geometry
record, yet the fused feature carries the emotions and the diary count of the
first statistic. -/
theorem fusion_second_of_same_name_lost :
    statJoy "Moscow" ∈ [statFear "Moscow", statJoy "Moscow"] ∧
    (statJoy "Moscow").emotions = some (Emotions.full (1 / 10) (6 / 10) (2 / 10) (1 / 10)) ∧
    getPropOpt (namedShape "Moscow").properties "name" = nameVal (statJoy "Moscow").name ∧
    (loadGeoJson (some (geoOf ["Moscow"])) [statFear "Moscow", statJoy "Moscow"]).features.map
        (fun g => getPropOpt g.properties "emotions") =
      [JSVal.emotions (Emotions.full (6 / 10) (1 / 10) (2 / 10) (1 / 10))] ∧
    (loadGeoJson (some (geoOf ["Moscow"])) [statFear "Moscow", statJoy "Moscow"]).features.map
        (fun g => getPropOpt g.properties "diaryCount") = [JSVal.num 14] ∧
    JSVal.emotions (Emotions.full (6 / 10) (1 / 10) (2 / 10) (1 / 10)) ≠
      JSVal.emotions (Emotions.full (1 / 10) (6 / 10) (2 / 10) (1 / 10)) ∧
    JSVal.num 14 ≠ JSVal.num 3 := by
  refine ⟨by simp, rfl, rfl, ?_, ?_, ?_, ?_⟩
  · simp only [loadGeoJson, featuresWithEmotions, geoOf, List.map, attachEmotions_emotions]
    simp [namedShape, getPropOpt, getProp, statFear, statJoy, nameVal]
  · simp only [loadGeoJson, featuresWithEmotions, geoOf, List.map, attachEmotions_diaryCount]
    simp [namedShape, getPropOpt, getProp, statFear, statJoy, nameVal, orZero]
  · simp [Emotions.full]
    norm_num
  · simp

/-- C2 (amended). For every geometry collection and stats list, and for
every stat `s` that carries emotion data and is the first stat of the list
with its name, each geometry record whose `properties.name` equals `s.name`
yields, at the same position, a fused feature whose `properties.emotions`
equal `s.emotions` exactly and whose `properties.diaryCount` equals
`s.diary_count` (zero when `s` has no `diary_count`). -/
theorem fusion_round_trip (data : GeoJson) (pre post : List RegionStat) (s : RegionStat)
    (e : Emotions) (name : String) (i : ℕ) (feature : Feature)
    (hfirst : ∀ r ∈ pre, r.name ≠ s.name)
    (hname : s.name = some name) (hemo : s.emotions = some e)
    (hi : data.features[i]? = some feature)
    (hmatch : getPropOpt feature.properties "name" = JSVal.str name) :
    ∃ fused, (loadGeoJson (some data) (pre ++ s :: post)).features[i]? = some fused ∧
      getPropOpt fused.properties "emotions" = JSVal.emotions e ∧
      (∀ q, s.diary_count = some q → getPropOpt fused.properties "diaryCount" = JSVal.num q) ∧
      (s.diary_count = none → getPropOpt fused.properties "diaryCount" = JSVal.num 0) := by
  refine ⟨attachEmotions (pre ++ s :: post) feature, ?_, ?_, ?_, ?_⟩
  · rw [loadGeoJson_base_get, hi]
    rfl
  · rw [attachEmotions_emotions, attachEmotions_of_first pre post s feature name hfirst hname hmatch]
    simp [hemo]
  · intro q hq
    rw [attachEmotions_diaryCount,
      attachEmotions_of_first pre post s feature name hfirst hname hmatch]
    simp [hq, orZero_some]
  · intro hq
    rw [attachEmotions_diaryCount,
      attachEmotions_of_first pre post s feature name hfirst hname hmatch]
    simp [hq, orZero]

/-- C2 (amended), at the first of two statistics named `Moscow`. -/
theorem fusion_round_trip_witness :
    ∃ fused, (loadGeoJson (some (geoOf ["Kiev", "Moscow"]))
        ([statJoy "Kiev"] ++ statFear "Moscow" :: [statJoy "Moscow"])).features[1]? =
          some fused ∧
      getPropOpt fused.properties "emotions" =
        JSVal.emotions (Emotions.full (6 / 10) (1 / 10) (2 / 10) (1 / 10)) ∧
      (∀ q, (statFear "Moscow").diary_count = some q →
        getPropOpt fused.properties "diaryCount" = JSVal.num q) ∧
      ((statFear "Moscow").diary_count = none →
        getPropOpt fused.properties "diaryCount" = JSVal.num 0) :=
  fusion_round_trip (geoOf ["Kiev", "Moscow"]) [statJoy "Kiev"] [statJoy "Moscow"]
    (statFear "Moscow") (Emotions.full (6 / 10) (1 / 10) (2 / 10) (1 / 10)) "Moscow" 1
    (namedShape "Moscow")
    (by simp [statJoy, statFear]) rfl rfl rfl rfl

/-! ## C3: geometry records without statistics -/

theorem getEmotionColor_default : getEmotionColor (some (Emotions.full 0 0 1 0)) = "#e5e7eb" := by
  rw [gray_iff]
  norm_num [max4]

theorem styleFeature_fillColor (feature : Feature) (e : Emotions)
    (h : getPropOpt feature.properties "emotions" = JSVal.emotions e) :
    (styleFeature feature).fillColor = getEmotionColor (some e) := by
  simp [styleFeature, emotionsOf, h]

/-- C3. For every geometry collection and stats list, every geometry record
whose name equals no stat's name is still emitted by the base path at its
position, with emotions `{fear: 0, joy: 0, neutral: 1, sadness: 0}` and
`diaryCount` 0, and `styleFeature` of that fused feature has `fillColor` equal
to the neutral gray constant `#e5e7eb`. -/
theorem unmatched_region_neutral (data : GeoJson) (regions : List RegionStat) (i : ℕ)
    (feature : Feature) (hi : data.features[i]? = some feature)
    (hno : ∀ r ∈ regions, nameVal r.name ≠ getPropOpt feature.properties "name") :
    ∃ fused, (loadGeoJson (some data) regions).features[i]? = some fused ∧
      getPropOpt fused.properties "emotions" = JSVal.emotions (Emotions.full 0 0 1 0) ∧
      getPropOpt fused.properties "diaryCount" = JSVal.num 0 ∧
      (styleFeature fused).fillColor = "#e5e7eb" := by
  have hfind : regions.find? (fun r =>
      decide (nameVal r.name = getPropOpt feature.properties "name")) = none := by
    rw [List.find?_eq_none]
    intro r hr
    simpa using hno r hr
  have hemo : getPropOpt (attachEmotions regions feature).properties "emotions" =
      JSVal.emotions (Emotions.full 0 0 1 0) := by
    rw [attachEmotions_emotions, hfind]
    rfl
  refine ⟨attachEmotions regions feature, ?_, hemo, ?_, ?_⟩
  · rw [loadGeoJson_base_get, hi]
    rfl
  · rw [attachEmotions_diaryCount, hfind]
    rfl
  · rw [styleFeature_fillColor _ _ hemo, getEmotionColor_default]

/-- C3, at a geometry file with a record `Kiev` and statistics for `Moscow`
only. -/
theorem unmatched_region_neutral_witness :
    ∃ fused, (loadGeoJson (some (geoOf ["Moscow", "Kiev"])) [statFear "Moscow"]).features[1]? =
        some fused ∧
      getPropOpt fused.properties "emotions" = JSVal.emotions (Emotions.full 0 0 1 0) ∧
      getPropOpt fused.properties "diaryCount" = JSVal.num 0 ∧
      (styleFeature fused).fillColor = "#e5e7eb" :=
  unmatched_region_neutral (geoOf ["Moscow", "Kiev"]) [statFear "Moscow"] 1 (namedShape "Kiev")
    rfl (by simp [statFear, nameVal, namedShape, getPropOpt, getProp])

/-! ## C5: the base path keeps shape and order -/

/-- C5. For every geometry collection and stats list the fused feature list
has the same length as the input feature list, and for every index `i` the
`i`-th output feature has the same `type`, `id`, `geometry`, `name` and every
other property as the `i`-th input feature; only the properties `emotions` and
`diaryCount` are set by fusion. -/
theorem fusion_keeps_shape (data : GeoJson) (regions : List RegionStat) :
    (loadGeoJson (some data) regions).features.length = data.features.length ∧
    (loadGeoJson (some data) regions).type = data.type ∧
    ∀ (i : ℕ) (feature : Feature), data.features[i]? = some feature →
      ∃ fused, (loadGeoJson (some data) regions).features[i]? = some fused ∧
        fused.type = feature.type ∧ fused.id = feature.id ∧
        fused.geometry = feature.geometry ∧
        getPropOpt fused.properties "name" = getPropOpt feature.properties "name" ∧
        ∀ key : String, key ≠ "emotions" → key ≠ "diaryCount" →
          getPropOpt fused.properties key = getPropOpt feature.properties key := by
  refine ⟨by simp [loadGeoJson, featuresWithEmotions], rfl, ?_⟩
  intro i feature hi
  refine ⟨attachEmotions regions feature, ?_, rfl, rfl, rfl, ?_, ?_⟩
  · rw [loadGeoJson_base_get, hi]
    rfl
  · exact attachEmotions_other regions feature "name" (by decide) (by decide)
  · intro key h1 h2
    exact attachEmotions_other regions feature key h1 h2

/-- C5, at a geometry file of two records and one statistic. -/
theorem fusion_keeps_shape_witness :
    (loadGeoJson (some (geoOf ["Moscow", "Kiev"])) [statFear "Moscow"]).features.length =
      (geoOf ["Moscow", "Kiev"]).features.length :=
  (fusion_keeps_shape (geoOf ["Moscow", "Kiev"]) [statFear "Moscow"]).1

/-! ## Lemmas on the fallback path -/

theorem loadGeoJson_fallback_get (regions : List RegionStat) (i : ℕ) :
    (loadGeoJson none regions).features[i]? =
      (regions[i]?).map (fun r => fallbackFeature r i) := by
  simp only [loadGeoJson, fallbackFeatures, List.getElem?_map, List.getElem?_enum]
  cases regions[i]? <;> rfl

theorem fallbackFeature_emotions (region : RegionStat) (i : ℕ) :
    getPropOpt (fallbackFeature region i).properties "emotions" =
      JSVal.emotions (match region.emotions with
        | some e => e
        | none => defaultEmotions) := by
  simp [fallbackFeature, getPropOpt, getProp]

theorem fallbackFeature_diaryCount (region : RegionStat) (i : ℕ) :
    getPropOpt (fallbackFeature region i).properties "diaryCount" =
      JSVal.num (orZero region.diary_count) := by
  simp [fallbackFeature, getPropOpt, getProp]

theorem orZero_nonneg (d : Option ℚ) (h : ∀ q, d = some q → 0 ≤ q) : 0 ≤ orZero d := by
  cases d with
  | none => simp [orZero]
  | some q =>
    rw [orZero_some]
    exact h q rfl

/-! ## C4: the fallback path -/

/-- C4 (as stated, refuted). A stat whose `geo_id` is present but is the
empty string gets the positional identifier `region-0`, not its `geo_id`. -/
theorem fallback_empty_geo_id :
    statEmptyId.geo_id = some "" ∧
    (loadGeoJson none [statEmptyId]).features.map (fun g => g.id) = [some "region-0"] ∧
    (some "region-0" : Option String) ≠ statEmptyId.geo_id := by
  refine ⟨rfl, ?_, ?_⟩
  · simp [loadGeoJson, fallbackFeatures, List.enum, List.enumFrom, fallbackFeature, fallbackId,
      statEmptyId]
    decide
  · simp [statEmptyId]

/-- C4 (amended). When the geometry source is unavailable, for every stats
list the result has exactly `stats.length` features in stat order, and for
every index `i` the `i`-th feature is a Point feature whose name is the `i`-th
stat's name, whose id is that stat's `geo_id` if present and not empty and
otherwise the string `region-i` (`i` the 0-based index), whose emotions are
the stat's emotions or, when missing, the default vector `{0, 0, 1, 0}`, and
whose `diaryCount` is the stat's `diary_count` or 0; for the empty stats list
the result is the empty collection. -/
theorem fallback_one_point_per_stat (regions : List RegionStat) :
    (loadGeoJson none regions).type = "FeatureCollection" ∧
    (loadGeoJson none regions).features.length = regions.length ∧
    (∀ (i : ℕ) (region : RegionStat), regions[i]? = some region →
      ∃ f, (loadGeoJson none regions).features[i]? = some f ∧
        f.type = "Feature" ∧
        (∃ x y, f.geometry = Geometry.point x y) ∧
        getPropOpt f.properties "name" = nameVal region.name ∧
        (∀ g, region.geo_id = some g → g ≠ "" → f.id = some g) ∧
        (region.geo_id = none ∨ region.geo_id = some "" →
          f.id = some ("region-" ++ toString i)) ∧
        (∀ e, region.emotions = some e →
          getPropOpt f.properties "emotions" = JSVal.emotions e) ∧
        (region.emotions = none →
          getPropOpt f.properties "emotions" = JSVal.emotions (Emotions.full 0 0 1 0)) ∧
        (∀ q, region.diary_count = some q →
          getPropOpt f.properties "diaryCount" = JSVal.num q) ∧
        (region.diary_count = none →
          getPropOpt f.properties "diaryCount" = JSVal.num 0)) ∧
    loadGeoJson none [] = { type := "FeatureCollection", features := [] } := by
  refine ⟨rfl, by simp [loadGeoJson, fallbackFeatures], ?_, rfl⟩
  intro i region hi
  refine ⟨fallbackFeature region i, ?_, rfl, ⟨_, _, rfl⟩, ?_, ?_, ?_, ?_, ?_, ?_, ?_⟩
  · rw [loadGeoJson_fallback_get, hi]
    rfl
  · simp [fallbackFeature, getPropOpt, getProp]
  · intro g hg hne
    simp [fallbackFeature, fallbackId, hg, hne]
  · rintro (h | h)
    · simp [fallbackFeature, fallbackId, h]
    · simp [fallbackFeature, fallbackId, h]
  · intro e he
    rw [fallbackFeature_emotions, he]
  · intro he
    rw [fallbackFeature_emotions, he]
    rfl
  · intro q hq
    rw [fallbackFeature_diaryCount, hq, orZero_some]
  · intro hq
    rw [fallbackFeature_diaryCount, hq]
    rfl

/-- C4 (amended), at the empty stats list: the empty collection. -/
theorem fallback_one_point_per_stat_witness :
    loadGeoJson none [] = { type := "FeatureCollection", features := [] } :=
  (fallback_one_point_per_stat []).2.2.2

/-! ## C6: every fused feature carries its derived fields -/

/-- C6. For every stats list in which each `diary_count` that is present is
non-negative, and for either outcome of the geometry fetch, every feature of
the fused collection has a defined `emotions` value (an emotions object) and a
defined, non-negative `diaryCount`. -/
theorem fused_fields_defined (fetched : Option GeoJson) (regions : List RegionStat)
    (hconf : ∀ r ∈ regions, ∀ q, r.diary_count = some q → 0 ≤ q) :
    ∀ g ∈ (loadGeoJson fetched regions).features,
      (∃ e, getPropOpt g.properties "emotions" = JSVal.emotions e) ∧
      (∃ q, getPropOpt g.properties "diaryCount" = JSVal.num q ∧ 0 ≤ q) := by
  intro g hg
  rw [List.mem_iff_getElem?] at hg
  obtain ⟨i, hi⟩ := hg
  cases fetched with
  | some data =>
    rw [loadGeoJson_base_get] at hi
    cases hf : data.features[i]? with
    | none => simp [hf] at hi
    | some feature =>
      rw [hf] at hi
      have hgeq : g = attachEmotions regions feature := by
        simpa using hi.symm
      subst hgeq
      refine ⟨⟨_, attachEmotions_emotions regions feature⟩,
        ⟨_, attachEmotions_diaryCount regions feature, ?_⟩⟩
      apply orZero_nonneg
      intro q hq
      cases hfind : regions.find? (fun r =>
          decide (nameVal r.name = getPropOpt feature.properties "name")) with
      | none => simp [hfind] at hq
      | some r =>
        rw [hfind] at hq
        exact hconf r (List.mem_of_find?_eq_some hfind) q hq
  | none =>
    rw [loadGeoJson_fallback_get] at hi
    cases hr : regions[i]? with
    | none => simp [hr] at hi
    | some region =>
      rw [hr] at hi
      have hgeq : g = fallbackFeature region i := by
        simpa using hi.symm
      subst hgeq
      refine ⟨⟨_, fallbackFeature_emotions region i⟩,
        ⟨_, fallbackFeature_diaryCount region i, ?_⟩⟩
      apply orZero_nonneg
      intro q hq
      have hmem : region ∈ regions := List.mem_iff_getElem?.2 ⟨i, hr⟩
      exact hconf region hmem q hq

/-- C6, at the one feature built from a well-formed statistic after a
failed geometry fetch. -/
theorem fused_fields_defined_witness :
    (∃ e, getPropOpt (fallbackFeature (statFear "Moscow") 0).properties "emotions" =
      JSVal.emotions e) ∧
    (∃ q, getPropOpt (fallbackFeature (statFear "Moscow") 0).properties "diaryCount" =
      JSVal.num q ∧ 0 ≤ q) :=
  fused_fields_defined none [statFear "Moscow"]
    (by
      intro r hr q hq
      simp only [List.mem_singleton] at hr
      subst hr
      simp only [statFear, Option.some.injEq] at hq
      rw [← hq]
      norm_num)
    (fallbackFeature (statFear "Moscow") 0)
    (by simp [loadGeoJson, fallbackFeatures, List.enum, List.enumFrom])

/-! ## C9: emotion objects with missing fields -/

/-- C9 (the code at the failing input). A stat whose emotions object lacks
`sadness` is fused, on either path, into a feature that `styleFeature` fills
with the neutral constant `#e5e7eb`, while `getEmotionColor` on the same
vector with `sadness` replaced by 0 gives `rgb(140, 42, 42)`. -/
theorem missing_field_renders_gray :
    (loadGeoJson (some (geoOf ["Moscow"])) [statNoSadness]).features.map
        (fun g => (styleFeature g).fillColor) = ["#e5e7eb"] ∧
    (loadGeoJson none [statNoSadness]).features.map
        (fun g => (styleFeature g).fillColor) = ["#e5e7eb"] ∧
    getEmotionColor (some (Emotions.full (6 / 10) (1 / 10) (2 / 10) 0)) = "rgb(140, 42, 42)" := by
  have hgray : getEmotionColor (some
      { fear := some (6 / 10), joy := some (1 / 10), neutral := some (2 / 10), sadness := none }) =
      "#e5e7eb" := by
    simp [getEmotionColor, mathMax, JSNumber.max2, JSNumber.ofField, JSNumber.strictEq]
  refine ⟨?_, ?_, ?_⟩
  · have h : getPropOpt (attachEmotions [statNoSadness] (namedShape "Moscow")).properties
        "emotions" = JSVal.emotions
          { fear := some (6 / 10), joy := some (1 / 10), neutral := some (2 / 10),
            sadness := none } := by
      rw [attachEmotions_emotions]
      simp [statNoSadness, nameVal, namedShape, getPropOpt, getProp]
    simp only [loadGeoJson, featuresWithEmotions, geoOf, List.map]
    rw [styleFeature_fillColor _ _ h, hgray]
  · have h : getPropOpt (fallbackFeature statNoSadness 0).properties "emotions" =
        JSVal.emotions
          { fear := some (6 / 10), joy := some (1 / 10), neutral := some (2 / 10),
            sadness := none } := by
      rw [fallbackFeature_emotions]
      rfl
    simp only [loadGeoJson, fallbackFeatures, List.enum, List.enumFrom, List.map]
    rw [styleFeature_fillColor _ _ h, hgray]
  · rw [red_eval (6 / 10) (1 / 10) (2 / 10) 0 (5404319552844595 / 9007199254740992) 60 140 42
      140 42 (by norm_num [max4]) dAdd_fs60 dMul_fs60 dSub_fs60 (by norm_num)
      dMul_fs60_tenths (by norm_num)]
    decide

/-! ## C10: fallback coordinates -/

theorem fallbackFeature_geometry (region : RegionStat) (i : ℕ) :
    (fallbackFeature region i).geometry =
      Geometry.point (376173 / 10000 + ((i % 10 : ℕ) : ℚ) * 2)
        (557558 / 10000 + ((⌊(i : ℚ) / 10⌋ : ℤ) : ℚ) * 2) := rfl

theorem grid_cell_injective (i j : ℕ)
    (hx : (376173 / 10000 : ℚ) + ((i % 10 : ℕ) : ℚ) * 2 =
      376173 / 10000 + ((j % 10 : ℕ) : ℚ) * 2)
    (hy : (557558 / 10000 : ℚ) + ((⌊(i : ℚ) / 10⌋ : ℤ) : ℚ) * 2 =
      557558 / 10000 + ((⌊(j : ℚ) / 10⌋ : ℤ) : ℚ) * 2) : i = j := by
  have hmod : i % 10 = j % 10 := by
    have h : ((i % 10 : ℕ) : ℚ) = ((j % 10 : ℕ) : ℚ) := by linarith
    exact_mod_cast h
  have hdiv : i / 10 = j / 10 := by
    have h : ((⌊(i : ℚ) / 10⌋ : ℤ) : ℚ) = ((⌊(j : ℚ) / 10⌋ : ℤ) : ℚ) := by linarith
    have h2 : (⌊(i : ℚ) / 10⌋ : ℤ) = ⌊(j : ℚ) / 10⌋ := by exact_mod_cast h
    have hi := Rat.floor_natCast_div_natCast i 10
    have hj := Rat.floor_natCast_div_natCast j 10
    simp only [Nat.cast_ofNat] at hi hj
    rw [hi, hj] at h2
    exact_mod_cast h2
  rw [← Nat.div_add_mod i 10, ← Nat.div_add_mod j 10, hmod, hdiv]

/-- C10. For every stats list and every two distinct indices `i ≠ j` into
it, the `i`-th and `j`-th synthetic Point features have the coordinate pairs
`[37.6173 + (i mod 10) * 2, 55.7558 + floor(i / 10) * 2]` and
`[37.6173 + (j mod 10) * 2, 55.7558 + floor(j / 10) * 2]`, which depend on the
index only, and the two pairs are different. -/
theorem fallback_coordinates_distinct (regions : List RegionStat) (i j : ℕ) (fi fj : Feature)
    (hi : (loadGeoJson none regions).features[i]? = some fi)
    (hj : (loadGeoJson none regions).features[j]? = some fj) (hij : i ≠ j) :
    fi.geometry = Geometry.point (376173 / 10000 + ((i % 10 : ℕ) : ℚ) * 2)
        (557558 / 10000 + ((⌊(i : ℚ) / 10⌋ : ℤ) : ℚ) * 2) ∧
    fj.geometry = Geometry.point (376173 / 10000 + ((j % 10 : ℕ) : ℚ) * 2)
        (557558 / 10000 + ((⌊(j : ℚ) / 10⌋ : ℤ) : ℚ) * 2) ∧
    fi.geometry ≠ fj.geometry := by
  rw [loadGeoJson_fallback_get] at hi hj
  cases hri : regions[i]? with
  | none => simp [hri] at hi
  | some ri =>
    cases hrj : regions[j]? with
    | none => simp [hrj] at hj
    | some rj =>
      rw [hri] at hi
      rw [hrj] at hj
      have hfi : fi = fallbackFeature ri i := by simpa using hi.symm
      have hfj : fj = fallbackFeature rj j := by simpa using hj.symm
      subst hfi
      subst hfj
      refine ⟨fallbackFeature_geometry ri i, fallbackFeature_geometry rj j, ?_⟩
      rw [fallbackFeature_geometry, fallbackFeature_geometry]
      intro h
      injection h with hx hy
      exact hij (grid_cell_injective i j hx hy)

/-- C10, at the indices 3 and 13 of a list of fourteen statistics: same
column of the grid, different rows. -/
theorem fallback_coordinates_distinct_witness :
    (fallbackFeature (statFear "Moscow") 3).geometry =
        Geometry.point (376173 / 10000 + ((3 % 10 : ℕ) : ℚ) * 2)
          (557558 / 10000 + ((⌊((3 : ℕ) : ℚ) / 10⌋ : ℤ) : ℚ) * 2) ∧
    (fallbackFeature (statFear "Moscow") 13).geometry =
        Geometry.point (376173 / 10000 + ((13 % 10 : ℕ) : ℚ) * 2)
          (557558 / 10000 + ((⌊((13 : ℕ) : ℚ) / 10⌋ : ℤ) : ℚ) * 2) ∧
    (fallbackFeature (statFear "Moscow") 3).geometry ≠
      (fallbackFeature (statFear "Moscow") 13).geometry :=
  fallback_coordinates_distinct (List.replicate 14 (statFear "Moscow")) 3 13
    (fallbackFeature (statFear "Moscow") 3) (fallbackFeature (statFear "Moscow") 13)
    (by rw [loadGeoJson_fallback_get]; rfl) (by rw [loadGeoJson_fallback_get]; rfl) (by decide)

/-! ## Lemmas on the interaction -/

theorem setStyle_toPatch (current s : Style) : setStyle current s.toPatch = s := rfl

theorem restyle_get_same (layers : List Layer) (i : ℕ) (f : Feature → Style → Style)
    (feature : Feature) (style : Style) (h : layers[i]? = some (Layer.path feature style)) :
    (restyle layers i f)[i]? = some (Layer.path feature (f feature style)) := by
  simp [restyle, h]

theorem restyle_get_other (layers : List Layer) (i j : ℕ) (f : Feature → Style → Style)
    (h : i ≠ j) : (restyle layers i f)[j]? = layers[j]? := by
  simp [restyle, List.getElem?_modify_ne _ _ h]

theorem step_mouseover (s : MapState) (i : ℕ) (feature : Feature) (style : Style)
    (h : s.layers[i]? = some (Layer.path feature style)) :
    step s (Event.mouseover i) =
      ({ s with
          layers := restyle s.layers i (fun _ style => setStyle style hoverPatch)
          order := bringToFront s.order i
          hoveredRegion := some (hoveredOf feature) }, []) := by
  simp [step, h]

theorem step_mouseout (s : MapState) (i : ℕ) (feature : Feature) (style : Style)
    (h : s.layers[i]? = some (Layer.path feature style)) :
    step s (Event.mouseout i) =
      ({ s with
          layers := restyle s.layers i
            (fun feature style => setStyle style (styleFeature feature).toPatch)
          order := bringToBack s.order i
          hoveredRegion := none }, []) := by
  simp [step, h]

theorem step_mouseover_marker (s : MapState) (i : ℕ) (feature : Feature)
    (h : s.layers[i]? = some (Layer.marker feature)) :
    step s (Event.mouseover i) = (s, []) := by
  simp [step, h]

theorem step_mouseout_marker (s : MapState) (i : ℕ) (feature : Feature)
    (h : s.layers[i]? = some (Layer.marker feature)) :
    step s (Event.mouseout i) = (s, []) := by
  simp [step, h]

theorem step_click (s : MapState) (i : ℕ) (l : Layer) (h : s.layers[i]? = some l) :
    step s (Event.click i) = (s, [clickedOf l.feature]) := by
  simp [step, h]

/-! ## C11: hover round trip -/

/-- C11 (as stated, refuted). When the geometry fetch fails, the fused
feature of a stat is a `Point`, its layer is a marker, and after a
pointer-enter followed by a pointer-leave on it the layer has no path style at
all, so its style is not `styleFeature(feature)`; the pointer-enter did not
reach `setHoveredRegion` either. -/
theorem marker_hover_restores_nothing :
    fallbackFeature (statFear "Moscow") 0 ∈ (loadGeoJson none [statFear "Moscow"]).features ∧
    (mounted (loadGeoJson none [statFear "Moscow"])).layers[0]? =
      some (Layer.marker (fallbackFeature (statFear "Moscow") 0)) ∧
    ((run (mounted (loadGeoJson none [statFear "Moscow"]))
        [Event.mouseover 0, Event.mouseout 0]).1.layers[0]?).bind Layer.pathStyle = none ∧
    ((run (mounted (loadGeoJson none [statFear "Moscow"]))
        [Event.mouseover 0, Event.mouseout 0]).1.layers[0]?).bind Layer.pathStyle ≠
      some (styleFeature (fallbackFeature (statFear "Moscow") 0)) ∧
    (run (mounted (loadGeoJson none [statFear "Moscow"])) [Event.mouseover 0]).1.hoveredRegion =
      none := by
  have h0 : (mounted (loadGeoJson none [statFear "Moscow"])).layers[0]? =
      some (Layer.marker (fallbackFeature (statFear "Moscow") 0)) := rfl
  have h1 := step_mouseover_marker _ 0 _ h0
  have h2 := step_mouseout_marker _ 0 _ h0
  have hrun : (run (mounted (loadGeoJson none [statFear "Moscow"]))
      [Event.mouseover 0, Event.mouseout 0]).1 = mounted (loadGeoJson none [statFear "Moscow"]) := by
    simp only [run]
    rw [h1]
    simp only []
    rw [h2]
  refine ⟨?_, h0, ?_, ?_, ?_⟩
  · simp [loadGeoJson, fallbackFeatures, List.enum, List.enumFrom]
  · rw [hrun, h0]
    rfl
  · rw [hrun, h0]
    simp [Layer.pathStyle]
  · simp only [run]
    rw [h1]
    rfl

/-- C11 (amended). For every fused feature whose layer is a path (a feature
with a line or polygon geometry), and whatever the state before, after a
pointer-enter (`mouseover`) followed by a pointer-leave (`mouseout`) on its
layer the style of the layer equals `styleFeature(feature)` in every style
property, the four that the hover emphasis overrides (`weight`, `color`,
`dashArray`, `fillOpacity`) included, and the hovered-region state is
`null`. -/
theorem hover_round_trip (s : MapState) (i : ℕ) (feature : Feature) (style : Style)
    (h : s.layers[i]? = some (Layer.path feature style)) :
    (run s [Event.mouseover i, Event.mouseout i]).1.layers[i]? =
      some (Layer.path feature (styleFeature feature)) ∧
    (run s [Event.mouseover i, Event.mouseout i]).1.hoveredRegion = none := by
  have h1 : (step s (Event.mouseover i)).1.layers[i]? =
      some (Layer.path feature (setStyle style hoverPatch)) := by
    rw [step_mouseover s i feature style h]
    exact restyle_get_same _ _ _ _ _ h
  simp only [run]
  rw [step_mouseout _ i _ _ h1]
  constructor
  · exact restyle_get_same _ _ _ _ _ h1
  · rfl

/-- C11 (amended), at the layer of `Moscow` in a freshly mounted map of two
polygons. -/
theorem hover_round_trip_witness :
    (run (mounted twoRegions) [Event.mouseover 0, Event.mouseout 0]).1.layers[0]? =
      some (Layer.path (attachEmotions [statFear "Moscow"] (namedShape "Moscow"))
        (styleFeature (attachEmotions [statFear "Moscow"] (namedShape "Moscow")))) ∧
    (run (mounted twoRegions) [Event.mouseover 0, Event.mouseout 0]).1.hoveredRegion = none :=
  hover_round_trip (mounted twoRegions) 0
    (attachEmotions [statFear "Moscow"] (namedShape "Moscow"))
    (styleFeature (attachEmotions [statFear "Moscow"] (namedShape "Moscow")))
    rfl

/-! ## C12: entering a second feature without leaving the first -/

theorem hover_then_hover (s : MapState) (i j : ℕ) (a b : Feature) (sa sb : Style)
    (ha : s.layers[i]? = some (Layer.path a sa)) (hb : s.layers[j]? = some (Layer.path b sb))
    (hij : i ≠ j) :
    (run s [Event.mouseover i, Event.mouseover j]).1.layers[i]? =
      some (Layer.path a (setStyle sa hoverPatch)) ∧
    (run s [Event.mouseover i, Event.mouseover j]).1.layers[j]? =
      some (Layer.path b (setStyle sb hoverPatch)) ∧
    (run s [Event.mouseover i, Event.mouseover j]).1.hoveredRegion =
      some (hoveredOf b) := by
  have h1i : (step s (Event.mouseover i)).1.layers[i]? =
      some (Layer.path a (setStyle sa hoverPatch)) := by
    rw [step_mouseover s i a sa ha]
    exact restyle_get_same _ _ _ _ _ ha
  have h1j : (step s (Event.mouseover i)).1.layers[j]? = some (Layer.path b sb) := by
    rw [step_mouseover s i a sa ha]
    simp only [restyle_get_other _ _ _ _ hij, hb]
  simp only [run]
  rw [step_mouseover _ j b sb h1j]
  refine ⟨?_, ?_, rfl⟩
  · simp only [restyle_get_other _ _ _ _ (Ne.symm hij), h1i]
  · exact restyle_get_same _ _ _ _ _ h1j

/-- C12 (as stated, refuted). In a freshly mounted map of two polygons,
after a pointer-enter on the first feature and a pointer-enter on the second,
the layer of the first feature still has the stroke weight 3 of the hover
emphasis, while `styleFeature` gives it weight 2. -/
theorem first_hover_not_restored :
    (((run (mounted twoRegions) [Event.mouseover 0, Event.mouseover 1]).1.layers[0]?).bind
        Layer.pathStyle).map (fun st => st.weight) = some 3 ∧
    ((mounted twoRegions).layers[0]?).map (fun l => (styleFeature l.feature).weight) = some 2 ∧
    ((run (mounted twoRegions) [Event.mouseover 0, Event.mouseover 1]).1.layers[0]?).bind
        Layer.pathStyle ≠
      ((mounted twoRegions).layers[0]?).map (fun l => styleFeature l.feature) := by
  have h := (hover_then_hover (mounted twoRegions) 0 1
    (attachEmotions [statFear "Moscow"] (namedShape "Moscow"))
    (attachEmotions [statFear "Moscow"] (namedShape "Kiev"))
    (styleFeature (attachEmotions [statFear "Moscow"] (namedShape "Moscow")))
    (styleFeature (attachEmotions [statFear "Moscow"] (namedShape "Kiev")))
    rfl rfl (by decide)).1
  have h0 : (mounted twoRegions).layers[0]? =
      some (Layer.path (attachEmotions [statFear "Moscow"] (namedShape "Moscow"))
        (styleFeature (attachEmotions [statFear "Moscow"] (namedShape "Moscow")))) :=
    rfl
  refine ⟨?_, ?_, ?_⟩
  · rw [h]
    rfl
  · rw [h0]
    rfl
  · rw [h, h0]
    intro hc
    have hw := congrArg (Option.map (fun st : Style => st.weight)) hc
    simp [Layer.pathStyle, Layer.feature, setStyle, hoverPatch, styleFeature] at hw

/-- C12 (amended). For every two distinct features A and B whose layers are
paths (features with a line or polygon geometry), starting from the default
state, the event sequence pointer-enter on A
then pointer-enter on B (with no pointer-leave on A in between) ends in a
state where B is hovered (its style is `styleFeature(B)` overridden by the
hover emphasis), the layer of A still has the hover emphasis over
`styleFeature(A)` (weight 3, color `#3b82f6`, empty dashArray, fillOpacity
0.9), and the hovered-region state holds the name of B (the placeholder text
when B has none), the emotions of B and the diaryCount of B only. -/
theorem second_hover_keeps_first (s : MapState) (i j : ℕ) (a b : Feature)
    (ha : s.layers[i]? = some (Layer.path a (styleFeature a)))
    (hb : s.layers[j]? = some (Layer.path b (styleFeature b)))
    (hij : i ≠ j) :
    (run s [Event.mouseover i, Event.mouseover j]).1.layers[j]? =
      some (Layer.path b
        { styleFeature b with
          weight := 3, color := "#3b82f6", dashArray := "", fillOpacity := 9 / 10 }) ∧
    (run s [Event.mouseover i, Event.mouseover j]).1.layers[i]? =
      some (Layer.path a
        { styleFeature a with
          weight := 3, color := "#3b82f6", dashArray := "", fillOpacity := 9 / 10 }) ∧
    (run s [Event.mouseover i, Event.mouseover j]).1.hoveredRegion =
      some { name := (getPropOpt b.properties "name").or (JSVal.str "Неизвестный регион")
             emotions := (getPropOpt b.properties "emotions").or emptyObject
             diaryCount := (getPropOpt b.properties "diaryCount").or (JSVal.num 0) } := by
  obtain ⟨h1, h2, h3⟩ := hover_then_hover s i j a b _ _ ha hb hij
  exact ⟨h2, h1, h3⟩

/-- C12 (amended), at the two layers of a freshly mounted map of two
polygons. -/
theorem second_hover_keeps_first_witness :
    (((run (mounted twoRegions) [Event.mouseover 0, Event.mouseover 1]).1.layers[0]?).bind
        Layer.pathStyle).map (fun st => st.color) = some "#3b82f6" ∧
    ((run (mounted twoRegions) [Event.mouseover 0, Event.mouseover 1]).1.hoveredRegion).map
        (fun r => r.name) = some (JSVal.str "Kiev") := by
  obtain ⟨_, h2, h3⟩ := second_hover_keeps_first (mounted twoRegions) 0 1
    (attachEmotions [statFear "Moscow"] (namedShape "Moscow"))
    (attachEmotions [statFear "Moscow"] (namedShape "Kiev")) rfl rfl (by decide)
  rw [h2, h3]
  refine ⟨rfl, ?_⟩
  simp only [Option.map]
  rw [attachEmotions_other _ _ "name" (by decide) (by decide)]
  simp [namedShape, getPropOpt, getProp, JSVal.or, JSVal.truthy]

/-! ## C13: replacing the collection while a region is hovered -/

/-- C13 (as stated, refuted). In a map of two regions with the first one
hovered, the completion of `loadGeoJson` for a new, empty `regions` list
replaces the collection, yet the hovered-region state is not `null` and the
tooltip is still rendered. -/
theorem hover_survives_reload :
    tooltipShown (run (mounted twoRegions) [Event.mouseover 0]).1 = true ∧
    (run (mounted twoRegions) [Event.mouseover 0, Event.regionsLoaded none []]).1.geoJsonData =
      some { type := "FeatureCollection", features := [] } ∧
    (run (mounted twoRegions) [Event.mouseover 0, Event.regionsLoaded none []]).1.hoveredRegion ≠
      none ∧
    tooltipShown (run (mounted twoRegions) [Event.mouseover 0, Event.regionsLoaded none []]).1 =
      true := by
  have h := step_mouseover (mounted twoRegions) 0
    (attachEmotions [statFear "Moscow"] (namedShape "Moscow"))
    (styleFeature (attachEmotions [statFear "Moscow"] (namedShape "Moscow"))) rfl
  simp only [run]
  rw [h]
  simp [step, tooltipShown, loadGeoJson, fallbackFeatures]

/-- C13 (amended). Whenever the fused FeatureCollection is replaced (the
`regions` input changes and `loadGeoJson` completes), the new collection is
stored and the hovered-region state of `MapView` is left as it was: while a
region is hovered the tooltip stays rendered, with the data of that region,
and no `onRegionClick` call is made. -/
theorem reload_keeps_hover (s : MapState) (fetched : Option GeoJson)
    (regions : List RegionStat) :
    (step s (Event.regionsLoaded fetched regions)).1.geoJsonData =
      some (loadGeoJson fetched regions) ∧
    (step s (Event.regionsLoaded fetched regions)).1.hoveredRegion = s.hoveredRegion ∧
    tooltipShown (step s (Event.regionsLoaded fetched regions)).1 = tooltipShown s ∧
    (step s (Event.regionsLoaded fetched regions)).1.layers = s.layers ∧
    (step s (Event.regionsLoaded fetched regions)).2 = [] :=
  ⟨rfl, rfl, rfl, rfl, rfl⟩

/-! ## C14: click -/

theorem fused_emotions_object (fetched : Option GeoJson) (regions : List RegionStat)
    (g : Feature) (hg : g ∈ (loadGeoJson fetched regions).features) :
    ∃ e, getPropOpt g.properties "emotions" = JSVal.emotions e := by
  cases fetched with
  | some data =>
    simp only [loadGeoJson, featuresWithEmotions, List.mem_map] at hg
    obtain ⟨feature, _, rfl⟩ := hg
    exact ⟨_, attachEmotions_emotions regions feature⟩
  | none =>
    simp only [loadGeoJson, fallbackFeatures, List.mem_map] at hg
    obtain ⟨p, _, rfl⟩ := hg
    exact ⟨_, fallbackFeature_emotions p.2 p.1⟩

/-- C14. For every fused feature (on either path) and every interaction
state, a click on its layer calls `onRegionClick` exactly once, with the
feature's name as `name`, the feature's id as `geoId` and the feature's
attached emotions as `emotions`, and leaves the whole state unchanged, the
styles of the layers and the hovered-region state included. -/
theorem click_hands_off (fetched : Option GeoJson) (regions : List RegionStat)
    (s : MapState) (i : ℕ) (l : Layer)
    (hfused : l.feature ∈ (loadGeoJson fetched regions).features)
    (hl : s.layers[i]? = some l) :
    (step s (Event.click i)).2 =
      [{ name := getPropOpt l.feature.properties "name"
         geoId := l.feature.id
         emotions := getPropOpt l.feature.properties "emotions" }] ∧
    (step s (Event.click i)).1 = s ∧
    (step s (Event.click i)).1.layers[i]? = some l ∧
    (step s (Event.click i)).1.hoveredRegion = s.hoveredRegion := by
  obtain ⟨e, he⟩ := fused_emotions_object fetched regions l.feature hfused
  rw [step_click s i l hl]
  refine ⟨?_, rfl, hl, rfl⟩
  simp [clickedOf, he, JSVal.or, JSVal.truthy]

/-- C14, at a click on the hovered `Moscow` layer of a map of two regions:
one call, with the attached emotions, and the layer keeps its hover style. -/
theorem click_hands_off_witness :
    (step (step (mounted twoRegions) (Event.mouseover 0)).1 (Event.click 0)).2 =
      [{ name := getPropOpt (attachEmotions [statFear "Moscow"]
            (namedShape "Moscow")).properties "name"
         geoId := (attachEmotions [statFear "Moscow"] (namedShape "Moscow")).id
         emotions := getPropOpt (attachEmotions [statFear "Moscow"]
            (namedShape "Moscow")).properties "emotions" }] ∧
    (step (step (mounted twoRegions) (Event.mouseover 0)).1 (Event.click 0)).1 =
      (step (mounted twoRegions) (Event.mouseover 0)).1 ∧
    (step (step (mounted twoRegions) (Event.mouseover 0)).1 (Event.click 0)).1.layers[0]? =
      some (Layer.path (attachEmotions [statFear "Moscow"] (namedShape "Moscow"))
        (setStyle (styleFeature (attachEmotions [statFear "Moscow"] (namedShape "Moscow")))
          hoverPatch)) ∧
    (step (step (mounted twoRegions) (Event.mouseover 0)).1 (Event.click 0)).1.hoveredRegion =
      (step (mounted twoRegions) (Event.mouseover 0)).1.hoveredRegion :=
  click_hands_off (some (geoOf ["Moscow", "Kiev"])) [statFear "Moscow"]
    (step (mounted twoRegions) (Event.mouseover 0)).1 0
    (Layer.path (attachEmotions [statFear "Moscow"] (namedShape "Moscow"))
      (setStyle (styleFeature (attachEmotions [statFear "Moscow"] (namedShape "Moscow")))
        hoverPatch))
    (by simp [Layer.feature, loadGeoJson, featuresWithEmotions, geoOf])
    (by
      rw [step_mouseover (mounted twoRegions) 0
        (attachEmotions [statFear "Moscow"] (namedShape "Moscow"))
        (styleFeature (attachEmotions [statFear "Moscow"] (namedShape "Moscow"))) rfl]
      rfl)

/-! ## C15: the three calls of the API service -/

theorem fetchMapData_respondWith {J : Type} (API_URL : String) (year : ℕ)
    (response : Response J) :
    fetchMapData API_URL (respondWith response) year =
      if response.ok = true then response.json
      else Except.error ("Failed to fetch map data" ++ (": " ++ response.statusText)) := by
  cases h : response.ok
  · simp only [fetchMapData, respondWith, h]
    simp only [Bool.not_false, if_true, Bool.false_eq_true, if_false]
    rw [← String.append_assoc]
    rfl
  · simp [fetchMapData, respondWith, h]

theorem fetchRegionDetail_respondWith {J : Type} (API_URL : String)
    (encodeURIComponent : String → String) (year : ℕ) (regionName : String)
    (response : Response J) :
    fetchRegionDetail API_URL (respondWith response) encodeURIComponent year regionName =
      if response.ok = true then response.json
      else Except.error ("Failed to fetch region detail" ++ (": " ++ response.statusText)) := by
  cases h : response.ok
  · simp only [fetchRegionDetail, respondWith, h]
    simp only [Bool.not_false, if_true, Bool.false_eq_true, if_false]
    rw [← String.append_assoc]
    rfl
  · simp [fetchRegionDetail, respondWith, h]

theorem checkHealth_respondWith {J : Type} (API_URL : String) (response : Response J) :
    checkHealth API_URL (respondWith response) =
      if response.ok = true then response.json
      else Except.error "Health check failed" := by
  cases h : response.ok
  · simp [checkHealth, respondWith, h]
  · simp [checkHealth, respondWith, h]

/-- C15 (as stated, refuted). For a response whose `ok` flag is true and
whose body is not JSON, each of the three calls rejects, with the error of
`response.json()`. -/
theorem ok_response_can_reject :
    htmlResponse.ok = true ∧
    fetchMapData "http://localhost:8000" (respondWith htmlResponse) 1941 =
      Except.error "Unexpected token < in JSON" ∧
    fetchRegionDetail "http://localhost:8000" (respondWith htmlResponse) id 1941 "Moscow" =
      Except.error "Unexpected token < in JSON" ∧
    checkHealth "http://localhost:8000" (respondWith htmlResponse) =
      Except.error "Unexpected token < in JSON" := by
  refine ⟨rfl, ?_, ?_, ?_⟩
  · rw [fetchMapData_respondWith]
    rfl
  · rw [fetchRegionDetail_respondWith]
    rfl
  · rw [checkHealth_respondWith]
    rfl

/-- C15 (amended). For each of `fetchMapData`, `fetchRegionDetail` and
`checkHealth` and for every HTTP response: when the `ok` flag is false the
call rejects with an error message beginning `Failed to fetch map data`,
`Failed to fetch region detail` and `Health check failed` respectively; when
`ok` is true the call settles as `response.json()` does, so it resolves to the
JSON body unchanged when the body parses; the call rejects if and only if `ok`
is false or `response.json()` rejects. -/
theorem api_calls_settle {J : Type} (API_URL : String) (encodeURIComponent : String → String)
    (year : ℕ) (regionName : String) (response : Response J) :
    (response.ok = false →
      (∃ rest, fetchMapData API_URL (respondWith response) year =
        Except.error ("Failed to fetch map data" ++ rest)) ∧
      (∃ rest, fetchRegionDetail API_URL (respondWith response) encodeURIComponent year
          regionName = Except.error ("Failed to fetch region detail" ++ rest)) ∧
      checkHealth API_URL (respondWith response) = Except.error "Health check failed") ∧
    (response.ok = true →
      fetchMapData API_URL (respondWith response) year = response.json ∧
      fetchRegionDetail API_URL (respondWith response) encodeURIComponent year regionName =
        response.json ∧
      checkHealth API_URL (respondWith response) = response.json) ∧
    (∀ body, response.ok = true → response.json = Except.ok body →
      fetchMapData API_URL (respondWith response) year = Except.ok body ∧
      fetchRegionDetail API_URL (respondWith response) encodeURIComponent year regionName =
        Except.ok body ∧
      checkHealth API_URL (respondWith response) = Except.ok body) ∧
    ((∃ e, fetchMapData API_URL (respondWith response) year = Except.error e) ↔
      (response.ok = false ∨ ∃ e, response.json = Except.error e)) ∧
    ((∃ e, fetchRegionDetail API_URL (respondWith response) encodeURIComponent year
        regionName = Except.error e) ↔
      (response.ok = false ∨ ∃ e, response.json = Except.error e)) ∧
    ((∃ e, checkHealth API_URL (respondWith response) = Except.error e) ↔
      (response.ok = false ∨ ∃ e, response.json = Except.error e)) := by
  rw [fetchMapData_respondWith, fetchRegionDetail_respondWith, checkHealth_respondWith]
  cases h : response.ok
  · simp
  · simp

/-- C15 (amended), at a 404 response and at a 200 response with a body. -/
theorem api_calls_settle_witness :
    (∃ rest, fetchMapData "http://localhost:8000" (respondWith notFound) 1941 =
      Except.error ("Failed to fetch map data" ++ rest)) ∧
    checkHealth "http://localhost:8000" (respondWith healthy) = Except.ok "status ok" :=
  ⟨((api_calls_settle "http://localhost:8000" id 1941 "Moscow" notFound).1 rfl).1,
    ((api_calls_settle "http://localhost:8000" id 1941 "Moscow" healthy).2.1 rfl).2.2⟩

end HistoryMap
